import Mathlib

/-!
# HW03 model viewer: camera state machine and import pipeline

A shallow embedding of `HW03.cpp` in two readings.

In the exact reading the `float` values of the program are elements of a
linearly ordered field `K` (no rounding, no overflow, no NaN) and the
library functions `sqrt`, `sin`, `cos` and the constant pi enter through a
record `FloatOps K`; `K = ℚ` gives executable definitions, `K = ℝ` with
`realOps` the usual real-number reading.

In the single-precision reading (namespace `Binary32`) a `float` is an
IEEE 754 binary32 value with round to nearest, ties to even, infinities and
NaN, a `double` argument is converted on entry, and the functions that
IEEE 754 does not fix enter through a record `Libm`.
-/

set_option linter.unusedSectionVars false
set_option exponentiation.threshold 4000
set_option maxRecDepth 100000

namespace HW03

/-! ## Vectors (glm::vec3, glm::vec2) -/

/-- The three components of a `glm::vec3`. -/
structure Vec3 (K : Type) where
  x : K
  y : K
  z : K
  deriving DecidableEq, Repr

/-- The two components of a `glm::vec2`. -/
structure Vec2 (K : Type) where
  x : K
  y : K
  deriving DecidableEq, Repr

/-- The library functions the program calls on floats. -/
structure FloatOps (K : Type) where
  sqrt : K → K
  sin : K → K
  cos : K → K
  pi : K

section VecOps

variable {K : Type} [LinearOrderedField K]

/-- The vector `glm::vec3(s)` with all components equal to `s`. -/
def Vec3.splat (s : K) : Vec3 K := ⟨s, s, s⟩

/-- Componentwise sum, `a + b`. -/
def Vec3.add (a b : Vec3 K) : Vec3 K := ⟨a.x + b.x, a.y + b.y, a.z + b.z⟩

/-- Componentwise difference, `a - b`. -/
def Vec3.sub (a b : Vec3 K) : Vec3 K := ⟨a.x - b.x, a.y - b.y, a.z - b.z⟩

/-- Product with a scalar, `v * s` (and `s * v`). -/
def Vec3.scale (v : Vec3 K) (s : K) : Vec3 K := ⟨v.x * s, v.y * s, v.z * s⟩

/-- Componentwise minimum, `glm::min(a, b)`. -/
def Vec3.min (a b : Vec3 K) : Vec3 K := ⟨Min.min a.x b.x, Min.min a.y b.y, Min.min a.z b.z⟩

/-- Componentwise maximum, `glm::max(a, b)`. -/
def Vec3.max (a b : Vec3 K) : Vec3 K := ⟨Max.max a.x b.x, Max.max a.y b.y, Max.max a.z b.z⟩

/-- Scalar product, `glm::dot(a, b)`. -/
def Vec3.dot (a b : Vec3 K) : K := a.x * b.x + a.y * b.y + a.z * b.z

/-- Vector product, `glm::cross(a, b)`. -/
def Vec3.cross (a b : Vec3 K) : Vec3 K :=
  ⟨a.y * b.z - b.y * a.z, a.z * b.x - b.z * a.x, a.x * b.y - b.x * a.y⟩

/-- Euclidean length, `glm::length(v) = sqrt(dot(v, v))`. -/
def Vec3.length (ops : FloatOps K) (v : Vec3 K) : K := ops.sqrt (Vec3.dot v v)

/-- The vector `glm::normalize(v) = v * inversesqrt(dot(v, v))`. -/
def Vec3.normalize (ops : FloatOps K) (v : Vec3 K) : Vec3 K :=
  Vec3.scale v (1 / ops.sqrt (Vec3.dot v v))

/-- Degrees to radians, `glm::radians(d)`. -/
def radians (ops : FloatOps K) (d : K) : K := d * (ops.pi / 180)

end VecOps

/-! ## Constants and global state -/

section Globals

variable {K : Type} [LinearOrderedField K]

/-- The constant `SCR_WIDTH`. -/
def SCR_WIDTH : Nat := 1280

/-- The constant `SCR_HEIGHT`. -/
def SCR_HEIGHT : Nat := 720

/-- The constant `MOUSE_SENSITIVITY = 0.1f`. -/
def MOUSE_SENSITIVITY : K := 1 / 10

/-- The constant `SCROLL_SENSITIVITY = 0.1f`. -/
def SCROLL_SENSITIVITY : K := 1 / 10

/-- The constant `MOVE_SPEED = 25.0f`. -/
def MOVE_SPEED : K := 25

/-- The two camera modes of `enum class ViewMode`. -/
inductive ViewMode where
  | MODEL_CENTERED
  | VIEWPOINT_CENTERED
  deriving DecidableEq, Repr

/-- The lines the program writes to `std::cout`; the text of a library
diagnostic is not kept. -/
inductive LogMsg (K : Type) where
  | glfwInitFailed
  | windowFailed
  | gladFailed
  | shaderFileNotRead
  | vertexCompileError
  | fragmentCompileError
  | programLinkError
  | shaderLoadFailed
  | assimpError
  | modelLoaded (center : Vec3 K)
  | modelRadiusLine (radius : K)
  | modelLoadFailed
  | currentMode (mode : ViewMode)
  deriving DecidableEq

/-- The global variables of the program, together with the static local
`cKeyPressed` of `processInput`, the close flag of the GLFW window and the
lines written to `std::cout` so far. -/
structure State (K : Type) where
  currentViewMode : ViewMode
  modelCenter : Vec3 K
  modelRadius : K
  mc_Yaw : K
  mc_Pitch : K
  mc_Distance : K
  mc_ModelOffset : Vec3 K
  vc_Yaw : K
  vc_Pitch : K
  vc_CameraPos : Vec3 K
  vc_CameraFront : Vec3 K
  vc_CameraUp : Vec3 K
  firstMouse : Bool
  lastX : K
  lastY : K
  deltaTime : K
  lastFrame : K
  cKeyPressed : Bool
  windowShouldClose : Bool
  cout : List (LogMsg K)
  deriving DecidableEq

/-- The values the globals are initialised with (lines 30-55, 424). -/
def State.init : State K where
  currentViewMode := ViewMode.MODEL_CENTERED
  modelCenter := Vec3.splat 0
  modelRadius := 5
  mc_Yaw := -90
  mc_Pitch := 0
  mc_Distance := 10
  mc_ModelOffset := Vec3.splat 0
  vc_Yaw := -90
  vc_Pitch := 0
  vc_CameraPos := ⟨0, 0, 10⟩
  vc_CameraFront := ⟨0, 0, -1⟩
  vc_CameraUp := ⟨0, 1, 0⟩
  firstMouse := true
  lastX := (SCR_WIDTH : K) / 2
  lastY := (SCR_HEIGHT : K) / 2
  deltaTime := 0
  lastFrame := 0
  cKeyPressed := false
  windowShouldClose := false
  cout := []

/-- The keys `processInput` polls with `glfwGetKey`; `true` is `GLFW_PRESS`. -/
structure Keys where
  escape : Bool
  c : Bool
  w : Bool
  s : Bool
  a : Bool
  d : Bool
  space : Bool
  leftShift : Bool
  deriving DecidableEq, Repr

/-! ## Callbacks -/

/-- The two `if`s that limit a pitch angle (lines 386-387, 395-396). -/
def clampPitch (p : K) : K :=
  let p1 := if p > 89 then 89 else p
  if p1 < -89 then -89 else p1

/-- The cursor callback `mouse_callback` (lines 361-405) in the exact
reading: the conversion of the arguments to `float` is the identity and no
operation rounds.  `Binary32.mouse_callback` is the single-precision reading. -/
def mouse_callback (ops : FloatOps K) (xpos ypos : K) (s : State K) : State K :=
  if s.firstMouse then
    { s with lastX := xpos, lastY := ypos, firstMouse := false }
  else
    let xoffset := xpos - s.lastX
    let yoffset := s.lastY - ypos
    let s1 := { s with lastX := xpos, lastY := ypos }
    let xoffset := xoffset * MOUSE_SENSITIVITY
    let yoffset := yoffset * MOUSE_SENSITIVITY
    match s1.currentViewMode with
    | ViewMode.MODEL_CENTERED =>
      { s1 with mc_Yaw := s1.mc_Yaw + xoffset,
                mc_Pitch := clampPitch (s1.mc_Pitch + yoffset) }
    | ViewMode.VIEWPOINT_CENTERED =>
      let yaw := s1.vc_Yaw + xoffset
      let pitch := clampPitch (s1.vc_Pitch + yoffset)
      let front : Vec3 K :=
        ⟨ops.cos (radians ops yaw) * ops.cos (radians ops pitch),
         ops.sin (radians ops pitch),
         ops.sin (radians ops yaw) * ops.cos (radians ops pitch)⟩
      { s1 with vc_Yaw := yaw, vc_Pitch := pitch,
                vc_CameraFront := Vec3.normalize ops front }

/-- The wheel callback `scroll_callback` (lines 408-414) in the exact
reading, without overflow or NaN.  `Binary32.scroll_callback` is the
single-precision reading. -/
def scroll_callback (_xoffset yoffset : K) (s : State K) : State K :=
  match s.currentViewMode with
  | ViewMode.MODEL_CENTERED =>
    let d := s.mc_Distance - yoffset * SCROLL_SENSITIVITY * s.mc_Distance
    { s with mc_Distance := if d < s.modelRadius * (1 / 10) then s.modelRadius * (1 / 10) else d }
  | ViewMode.VIEWPOINT_CENTERED => s

/-- The other mode, the value of the conditional expression on line 427. -/
def ViewMode.toggle : ViewMode → ViewMode
  | ViewMode.MODEL_CENTERED => ViewMode.VIEWPOINT_CENTERED
  | ViewMode.VIEWPOINT_CENTERED => ViewMode.MODEL_CENTERED

/-- The escape key (lines 419-421): request to close the window. -/
def processEscape (keys : Keys) (s : State K) : State K :=
  if keys.escape then { s with windowShouldClose := true } else s

/-- The mode key C (lines 424-434), with the static local `cKeyPressed`. -/
def processToggle (keys : Keys) (s : State K) : State K :=
  if keys.c then
    if !s.cKeyPressed then
      { s with currentViewMode := s.currentViewMode.toggle,
               cout := s.cout ++ [LogMsg.currentMode s.currentViewMode.toggle],
               cKeyPressed := true }
    else s
  else { s with cKeyPressed := false }

/-- The movement keys in `MODEL_CENTERED` mode (lines 440-460). -/
def moveModel (ops : FloatOps K) (keys : Keys) (speed : K) (s : State K) : State K :=
  let s := if keys.w then
    { s with mc_ModelOffset := { s.mc_ModelOffset with y := s.mc_ModelOffset.y + speed } } else s
  let s := if keys.s then
    { s with mc_ModelOffset := { s.mc_ModelOffset with y := s.mc_ModelOffset.y - speed } } else s
  let mc_Front : Vec3 K := Vec3.normalize ops
    ⟨ops.cos (radians ops s.mc_Yaw) * ops.cos (radians ops s.mc_Pitch),
     ops.sin (radians ops s.mc_Pitch),
     ops.sin (radians ops s.mc_Yaw) * ops.cos (radians ops s.mc_Pitch)⟩
  let mc_Right := Vec3.normalize ops (Vec3.cross mc_Front ⟨0, 1, 0⟩)
  let s := if keys.a then
    { s with mc_ModelOffset := Vec3.sub s.mc_ModelOffset (Vec3.scale mc_Right speed) } else s
  let s := if keys.d then
    { s with mc_ModelOffset := Vec3.add s.mc_ModelOffset (Vec3.scale mc_Right speed) } else s
  s

/-- The movement keys in `VIEWPOINT_CENTERED` mode (lines 464-482). -/
def moveCamera (ops : FloatOps K) (keys : Keys) (speed : K) (s : State K) : State K :=
  let s := if keys.w then
    { s with vc_CameraPos := Vec3.add s.vc_CameraPos (Vec3.scale s.vc_CameraFront speed) } else s
  let s := if keys.s then
    { s with vc_CameraPos := Vec3.sub s.vc_CameraPos (Vec3.scale s.vc_CameraFront speed) } else s
  let vc_Right := Vec3.normalize ops (Vec3.cross s.vc_CameraFront s.vc_CameraUp)
  let s := if keys.a then
    { s with vc_CameraPos := Vec3.sub s.vc_CameraPos (Vec3.scale vc_Right speed) } else s
  let s := if keys.d then
    { s with vc_CameraPos := Vec3.add s.vc_CameraPos (Vec3.scale vc_Right speed) } else s
  let s := if keys.space then
    { s with vc_CameraPos := Vec3.add s.vc_CameraPos (Vec3.scale s.vc_CameraUp speed) } else s
  let s := if keys.leftShift then
    { s with vc_CameraPos := Vec3.sub s.vc_CameraPos (Vec3.scale s.vc_CameraUp speed) } else s
  s

/-- The per-frame key handler `processInput` (lines 417-484): the escape
key, the mode key, then the movement keys of the mode that is now active. -/
def processInput (ops : FloatOps K) (keys : Keys) (s : State K) : State K :=
  let s := processEscape keys s
  let s := processToggle keys s
  let speed : K := MOVE_SPEED * s.deltaTime
  match s.currentViewMode with
  | ViewMode.MODEL_CENTERED => moveModel ops keys speed s
  | ViewMode.VIEWPOINT_CENTERED => moveCamera ops keys speed s

/-- The frame-time update at the head of the render loop (lines 594-596). -/
def updateTime (currentFrame : K) (s : State K) : State K :=
  { s with deltaTime := currentFrame - s.lastFrame, lastFrame := currentFrame }

/-- One thing that happens to the camera state: a cursor sample, a wheel
sample, a frame-time update, or a call of `processInput`. -/
inductive Event (K : Type) where
  | mouse (xpos ypos : K)
  | scroll (xoffset yoffset : K)
  | time (currentFrame : K)
  | input (keys : Keys)

/-- The effect of one event on the state. -/
def step (ops : FloatOps K) (e : Event K) (s : State K) : State K :=
  match e with
  | Event.mouse x y => mouse_callback ops x y s
  | Event.scroll x y => scroll_callback x y s
  | Event.time t => updateTime t s
  | Event.input keys => processInput ops keys s

/-- The effect of a sequence of events, handled from left to right. -/
def run (ops : FloatOps K) (es : List (Event K)) (s : State K) : State K :=
  es.foldl (fun acc e => step ops e acc) s

end Globals

/-! ## Meshes and the import pipeline -/

section Import

variable {K : Type} [LinearOrderedField K]

/-- The fields of `struct Vertex`. -/
structure Vertex (K : Type) where
  Position : Vec3 K
  Normal : Vec3 K
  TexCoords : Vec2 K
  deriving DecidableEq

/-- The data of `class Mesh`; the GPU handles `VAO`, `VBO`, `EBO` are left out. -/
structure Mesh (K : Type) where
  vertices : List (Vertex K)
  indices : List Nat
  deriving DecidableEq

/-- An Assimp face, `aiFace`: its `mNumIndices` indices. -/
structure AiFace where
  mIndices : List Nat
  deriving DecidableEq, Repr

/-- The parts of an Assimp mesh, `aiMesh`, that `processMesh` reads.
`mNumVertices` is the length of `mVertices`; a null `mNormals` or
`mTextureCoords[0]` is `none`. -/
structure AiMesh (K : Type) where
  mVertices : List (Vec3 K)
  mNormals : Option (List (Vec3 K))
  mTextureCoords0 : Option (List (Vec3 K))
  mFaces : List AiFace
  deriving DecidableEq

/-- The count `mesh->mNumVertices`. -/
def AiMesh.mNumVertices (mesh : AiMesh K) : Nat := mesh.mVertices.length

/-- Assimp's `aiMesh::HasNormals()`: `mNormals != nullptr && mNumVertices > 0`. -/
def AiMesh.HasNormals (mesh : AiMesh K) : Bool :=
  mesh.mNormals.isSome && decide (0 < mesh.mNumVertices)

/-- An Assimp scene node, `aiNode`: mesh numbers and child nodes. -/
inductive AiNode where
  | mk (mMeshes : List Nat) (mChildren : List AiNode)

/-- The parts of an Assimp scene, `aiScene`, that the program reads;
`incomplete` is the bit `AI_SCENE_FLAGS_INCOMPLETE` of `mFlags`. -/
structure AiScene (K : Type) where
  incomplete : Bool
  mRootNode : Option AiNode
  mMeshes : List (AiMesh K)

/-- The vertex built in one round of the first loop of `processMesh`
(lines 283-309).  A normal that the code leaves unset is read as zero, and
an array read past its end as zero. -/
def processVertex (mesh : AiMesh K) (i : Nat) : Vertex K :=
  let position := mesh.mVertices.getD i (Vec3.splat 0)
  let normal :=
    if mesh.HasNormals then (mesh.mNormals.getD []).getD i (Vec3.splat 0) else Vec3.splat 0
  let tex : Vec2 K :=
    match mesh.mTextureCoords0 with
    | some tcs => ⟨(tcs.getD i (Vec3.splat 0)).x, (tcs.getD i (Vec3.splat 0)).y⟩
    | none => ⟨0, 0⟩
  { Position := position, Normal := normal, TexCoords := tex }

/-- The conversion `Model::processMesh` (lines 277-323): one vertex per
source vertex, then the indices of every face in turn. -/
def processMesh (mesh : AiMesh K) : Mesh K :=
  let vertices := (List.range mesh.mNumVertices).foldl
    (fun vs i => vs ++ [processVertex mesh i]) []
  let indices := mesh.mFaces.foldl
    (fun idx face => face.mIndices.foldl (fun idx j => idx ++ [j]) idx) []
  { vertices := vertices, indices := indices }

mutual
/-- The walk `Model::processNode` (lines 264-274): the meshes of the node,
then the child nodes in order.  A mesh number outside `scene->mMeshes` is
skipped. -/
def processNode (scene : AiScene K) : AiNode → List (Mesh K) → List (Mesh K)
  | AiNode.mk ms children, meshes =>
    processChildren scene children
      (ms.foldl (fun acc i =>
        match scene.mMeshes.get? i with
        | some mesh => acc ++ [processMesh mesh]
        | none => acc) meshes)
/-- The second loop of `processNode`, over the children. -/
def processChildren (scene : AiScene K) : List AiNode → List (Mesh K) → List (Mesh K)
  | [], meshes => meshes
  | child :: rest, meshes => processChildren scene rest (processNode scene child meshes)
end

/-- The loader `Model::loadModel` (lines 243-261), given what
`importer.ReadFile` returned: the meshes of the model and the state, whose
`cout` has the diagnostic when the import failed.  The member `directory`
is left out. -/
def loadModel (readFile : Option (AiScene K)) (s : State K) : List (Mesh K) × State K :=
  match readFile with
  | none => ([], { s with cout := s.cout ++ [LogMsg.assimpError] })
  | some scene =>
    if scene.incomplete then ([], { s with cout := s.cout ++ [LogMsg.assimpError] })
    else
      match scene.mRootNode with
      | none => ([], { s with cout := s.cout ++ [LogMsg.assimpError] })
      | some root => (processNode scene root [], s)

/-- The two nested loops of `calculateModelCenterAndRadius` (lines 337-342):
the pair `(minPos, maxPos)` after every vertex of every mesh. -/
def foldMinMax (meshes : List (Mesh K)) (start : Vec3 K × Vec3 K) : Vec3 K × Vec3 K :=
  meshes.foldl (fun acc mesh =>
    mesh.vertices.foldl (fun acc vertex =>
      (Vec3.min acc.1 vertex.Position, Vec3.max acc.2 vertex.Position)) acc) start

/-- The function `Model::calculateModelCenterAndRadius` (lines 326-351). -/
def calculateModelCenterAndRadius (ops : FloatOps K) (meshes : List (Mesh K))
    (s : State K) : State K :=
  match meshes with
  | [] => { s with modelCenter := Vec3.splat 0, modelRadius := 5 }
  | mesh0 :: _ =>
    match mesh0.vertices with
    | [] => { s with modelCenter := Vec3.splat 0, modelRadius := 5 }
    | vertex0 :: _ =>
      let box := foldMinMax meshes (vertex0.Position, vertex0.Position)
      let minPos := box.1
      let maxPos := box.2
      let center := Vec3.scale (Vec3.add minPos maxPos) (1 / 2)
      let radius := Vec3.length ops (Vec3.sub maxPos minPos) * (1 / 2)
      { s with modelCenter := center,
               modelRadius := radius,
               mc_Distance := radius * 2,
               vc_CameraPos := Vec3.add center ⟨0, 0, radius * 2⟩ }

/-- The constructor `Model::Model` (lines 225-228). -/
def Model.new (ops : FloatOps K) (readFile : Option (AiScene K)) (s : State K) :
    List (Mesh K) × State K :=
  let r := loadModel readFile s
  (r.1, calculateModelCenterAndRadius ops r.1 r.2)

end Import

/-! ## The main function -/

section Main

variable {K : Type} [LinearOrderedField K]

/-- What `glfwPollEvents` can deliver: a cursor position, a wheel movement,
or a request to close the window. -/
inductive Polled (K : Type) where
  | cursorPos (xpos ypos : K)
  | scroll (xoffset yoffset : K)
  | close

/-- What one round of the render loop reads from outside: the clock, the
keys, and the events polled at its end. -/
structure Frame (K : Type) where
  currentFrame : K
  keys : Keys
  polled : List (Polled K)

/-- What `main` gets from the libraries it calls. -/
structure Env (K : Type) where
  glfwInit : Bool
  windowCreated : Bool
  gladLoaded : Bool
  shaderFilesRead : Bool
  vertexCompiled : Bool
  fragmentCompiled : Bool
  programLinked : Bool
  programID : Nat
  modelException : Bool
  readFile : Option (AiScene K)
  frames : List (Frame K)

/-- How a run of `main` ends: the value it returns (`none` while the render
loop has not ended within the given frames), the state then, and the number
of rounds of the render loop. -/
structure MainResult (K : Type) where
  exit : Option Int
  state : State K
  iterations : Nat

/-- The callback run for one polled event. -/
def deliver (ops : FloatOps K) (e : Polled K) (s : State K) : State K :=
  match e with
  | Polled.cursorPos x y => mouse_callback ops x y s
  | Polled.scroll x y => scroll_callback x y s
  | Polled.close => { s with windowShouldClose := true }

/-- One round of the render loop (lines 593-648), as far as it changes the state. -/
def renderFrame (ops : FloatOps K) (f : Frame K) (s : State K) : State K :=
  f.polled.foldl (fun acc e => deliver ops e acc)
    (processInput ops f.keys (updateTime f.currentFrame s))

/-- The render loop (lines 592-649) followed by `return 0`. -/
def renderLoop (ops : FloatOps K) : List (Frame K) → State K → Nat → MainResult K
  | [], s, n => { exit := if s.windowShouldClose then some 0 else none, state := s, iterations := n }
  | f :: fs, s, n =>
    if s.windowShouldClose then { exit := some 0, state := s, iterations := n }
    else renderLoop ops fs (renderFrame ops f s) (n + 1)

/-- The diagnostics of the `Shader` constructor (lines 62-111). -/
def shaderLog (env : Env K) : List (LogMsg K) :=
  (if env.shaderFilesRead then [] else [LogMsg.shaderFileNotRead]) ++
  (if env.vertexCompiled then [] else [LogMsg.vertexCompileError]) ++
  (if env.fragmentCompiled then [] else [LogMsg.fragmentCompileError]) ++
  (if env.programLinked then [] else [LogMsg.programLinkError])

/-- The function `main` (lines 487-655).  `modelException` says that a
`std::exception` leaves `new Model(...)`; the code of `Model` has no `throw`
of its own. -/
def main (ops : FloatOps K) (env : Env K) : MainResult K :=
  let s : State K := State.init
  if !env.glfwInit then
    { exit := some (-1), state := { s with cout := s.cout ++ [LogMsg.glfwInitFailed] },
      iterations := 0 }
  else if !env.windowCreated then
    { exit := some (-1), state := { s with cout := s.cout ++ [LogMsg.windowFailed] },
      iterations := 0 }
  else if !env.gladLoaded then
    { exit := some (-1), state := { s with cout := s.cout ++ [LogMsg.gladFailed] },
      iterations := 0 }
  else
    let s := { s with cout := s.cout ++ shaderLog env }
    if env.programID = 0 then
      { exit := some (-1), state := { s with cout := s.cout ++ [LogMsg.shaderLoadFailed] },
        iterations := 0 }
    else if env.modelException then
      { exit := some (-1), state := { s with cout := s.cout ++ [LogMsg.modelLoadFailed] },
        iterations := 0 }
    else
      let s := (Model.new ops env.readFile s).2
      let s := { s with cout := s.cout ++
        [LogMsg.modelLoaded s.modelCenter, LogMsg.modelRadiusLine s.modelRadius] }
      renderLoop ops env.frames s 0

end Main

/-- The real-number reading of the float library functions. -/
noncomputable def realOps : FloatOps ℝ where
  sqrt := Real.sqrt
  sin := Real.sin
  cos := Real.cos
  pi := Real.pi

/-- No key is down. -/
def Keys.released : Keys :=
  { escape := false, c := false, w := false, s := false, a := false, d := false,
    space := false, leftShift := false }

/-- Only the mode key C is down. -/
def Keys.onlyC : Keys := { Keys.released with c := true }

/-- Only the forward key W is down. -/
def Keys.onlyW : Keys := { Keys.released with w := true }

/-- Only the escape key is down. -/
def Keys.onlyEscape : Keys := { Keys.released with escape := true }

/-! ## Specification-side notions -/

section SpecDefs

variable {K : Type} [LinearOrderedField K]

/-- The pitch of the active mode: `mc_Pitch` in `MODEL_CENTERED`, `vc_Pitch`
in `VIEWPOINT_CENTERED`. -/
def State.activePitch (s : State K) : K :=
  match s.currentViewMode with
  | ViewMode.MODEL_CENTERED => s.mc_Pitch
  | ViewMode.VIEWPOINT_CENTERED => s.vc_Pitch

/-- The yaw of the active mode. -/
def State.activeYaw (s : State K) : K :=
  match s.currentViewMode with
  | ViewMode.MODEL_CENTERED => s.mc_Yaw
  | ViewMode.VIEWPOINT_CENTERED => s.vc_Yaw

/-- Both pitch angles lie in the interval from -89 to 89. -/
def State.PitchesInRange (s : State K) : Prop :=
  (-89 ≤ s.mc_Pitch ∧ s.mc_Pitch ≤ 89) ∧ (-89 ≤ s.vc_Pitch ∧ s.vc_Pitch ≤ 89)

/-- One round of the render loop before drawing: the clock update and
`processInput` (lines 594-599). -/
def frameInput (ops : FloatOps K) (f : K × Keys) (s : State K) : State K :=
  processInput ops f.2 (updateTime f.1 s)

/-- Several rounds in a row, with no callback in between. -/
def frames (ops : FloatOps K) (fs : List (K × Keys)) (s : State K) : State K :=
  fs.foldl (fun acc f => frameInput ops f acc) s

/-- Every state on the way through the events `es` from `s`, the last one
included, is in `VIEWPOINT_CENTERED` mode. -/
def StaysViewpoint (ops : FloatOps K) : List (Event K) → State K → Prop
  | [], _ => True
  | e :: es, s =>
    (step ops e s).currentViewMode = ViewMode.VIEWPOINT_CENTERED ∧
      StaysViewpoint ops es (step ops e s)

/-- The mode after `processInput`: the other one exactly when C is down and was not
held before. -/
def nextMode (keys : Keys) (s : State K) : ViewMode :=
  if keys.c = true ∧ s.cKeyPressed = false then s.currentViewMode.toggle else s.currentViewMode

/-- The parameters of the orbit camera: yaw, pitch, distance, model offset. -/
def State.orbit (s : State K) : K × K × K × Vec3 K :=
  (s.mc_Yaw, s.mc_Pitch, s.mc_Distance, s.mc_ModelOffset)

/-- The flat list of the indices of the faces, in face order. -/
def faceIndices (faces : List AiFace) : List Nat :=
  (faces.map AiFace.mIndices).flatten

/-- A vertex at the given position, with zero normal and texture coordinate. -/
def Vertex.at (x y z : K) : Vertex K :=
  { Position := ⟨x, y, z⟩, Normal := ⟨0, 0, 0⟩, TexCoords := ⟨0, 0⟩ }

/-- A sample source mesh: a unit square of two triangles with normals. -/
def sampleQuad : AiMesh ℚ where
  mVertices := [⟨0, 0, 0⟩, ⟨1, 0, 0⟩, ⟨0, 1, 0⟩, ⟨1, 1, 0⟩]
  mNormals := some [⟨0, 0, 1⟩, ⟨0, 0, 1⟩, ⟨0, 0, 1⟩, ⟨0, 0, 1⟩]
  mTextureCoords0 := none
  mFaces := [⟨[0, 1, 2]⟩, ⟨[2, 1, 3]⟩]

/-- A run in which every library call succeeds except the model import,
which returns no scene; the escape key is down in the first frame. -/
def importFailureEnv : Env ℝ where
  glfwInit := true
  windowCreated := true
  gladLoaded := true
  shaderFilesRead := true
  vertexCompiled := true
  fragmentCompiled := true
  programLinked := true
  programID := 1
  modelException := false
  readFile := none
  frames := [{ currentFrame := 0, keys := Keys.onlyEscape, polled := [] }]

/-- The import failed: no scene, an incomplete scene, or no root node
(the condition on line 253). -/
def ImportFailed (readFile : Option (AiScene K)) : Prop :=
  match readFile with
  | none => True
  | some scene => scene.incomplete = true ∨ scene.mRootNode = none

end SpecDefs

/-! ## View and model matrices -/

section Matrices

variable {K : Type} [LinearOrderedField K]

/-- The four components of a `glm::vec4`. -/
structure Vec4 (K : Type) where
  x : K
  y : K
  z : K
  w : K
  deriving DecidableEq, Repr

/-- Componentwise sum of two `vec4`. -/
def Vec4.add (a b : Vec4 K) : Vec4 K := ⟨a.x + b.x, a.y + b.y, a.z + b.z, a.w + b.w⟩

/-- Product of a `vec4` with a scalar. -/
def Vec4.scale (v : Vec4 K) (s : K) : Vec4 K := ⟨v.x * s, v.y * s, v.z * s, v.w * s⟩

/-- The direction of yaw and pitch in degrees, as `mouse_callback`
(lines 400-402) and `processInput` (lines 449-451) compute it. -/
def direction (ops : FloatOps K) (yaw pitch : K) : Vec3 K :=
  ⟨ops.cos (radians ops yaw) * ops.cos (radians ops pitch),
   ops.sin (radians ops pitch),
   ops.sin (radians ops yaw) * ops.cos (radians ops pitch)⟩

/-- The vector `(-v.x, -v.y, -v.z)`. -/
def Vec3.neg (v : Vec3 K) : Vec3 K := ⟨-v.x, -v.y, -v.z⟩

end Matrices

/-! ## Single-precision arithmetic

The `float` of the program as IEEE 754 binary32 with round to nearest, ties
to even.  A finite value is an integer multiple of `2^-149`, the smallest
subnormal; the two zeros are not told apart. -/

namespace Binary32

/-- A binary32 value: `fin n` is `n * 2^-149`, `inf b` is minus infinity
when `b` and plus infinity otherwise, `nan` is a NaN. -/
inductive F32 where
  | fin (n : Int)
  | inf (negative : Bool)
  | nan
  deriving DecidableEq, Repr

/-- A finite `double` argument, `num / 2^scale`. -/
structure Dyadic where
  num : Int
  scale : Nat
  deriving DecidableEq, Repr

/-- The number of binary digits of `a`, counted by halving at most `fuel`
times. -/
def bitLengthAux : Nat → Nat → Nat
  | 0, _ => 0
  | fuel + 1, a => if a = 0 then 0 else bitLengthAux fuel (a / 2) + 1

/-- The number of binary digits of `a` (0 for 0). -/
def bitLength (a : Nat) : Nat := bitLengthAux a a

/-- The binary32 value nearest to `m / 2^s` units of `2^-149`: at most 24
significant bits are kept, a tie goes to the even neighbour, and a result
of `2^128` or more becomes an infinity. -/
def roundUnits (m : Int) (s : Nat) : F32 :=
  let a := m.natAbs
  if a = 0 then F32.fin 0
  else
    let k := max (bitLength a - 24) s
    let q := a / 2 ^ k
    let rem := a % 2 ^ k
    let half := 2 ^ (k - 1)
    let q1 := if 0 < k ∧ (half < rem ∨ (rem = half ∧ q % 2 = 1)) then q + 1 else q
    let n := q1 * 2 ^ (k - s)
    if 2 ^ 277 ≤ n then F32.inf (decide (m < 0))
    else F32.fin (if m < 0 then -(n : Int) else (n : Int))

/-- The binary32 value nearest to the rational `num / den` (`den > 0`):
the quotient is taken to 64 extra bits with a sticky bit, then rounded. -/
def roundRat (num : Int) (den : Nat) : F32 :=
  let a := num.natAbs * 2 ^ 213
  let q := a / den
  let sticky := if a % den = 0 then 0 else 1
  roundUnits (if num < 0 then -((2 * q + sticky : Nat) : Int) else ((2 * q + sticky : Nat) : Int)) 65

/-- The conversion `(float)x` of a finite `double`. -/
def narrow (d : Dyadic) : F32 := roundUnits (d.num * 2 ^ 149) d.scale

/-- The `float` with the value of an integer (rounded when it has more than
24 significant bits). -/
def F32.ofInt (z : Int) : F32 := roundUnits (z * 2 ^ 149) 0

/-- Negation. -/
def F32.neg : F32 → F32
  | F32.fin n => F32.fin (-n)
  | F32.inf b => F32.inf (!b)
  | F32.nan => F32.nan

/-- Addition: infinities of opposite sign give NaN. -/
def F32.add : F32 → F32 → F32
  | F32.nan, _ => F32.nan
  | _, F32.nan => F32.nan
  | F32.inf a, F32.inf b => if a = b then F32.inf a else F32.nan
  | F32.inf a, F32.fin _ => F32.inf a
  | F32.fin _, F32.inf b => F32.inf b
  | F32.fin a, F32.fin b => roundUnits (a + b) 0

/-- Subtraction, `a + (-b)`. -/
def F32.sub (a b : F32) : F32 := F32.add a (F32.neg b)

/-- Multiplication: zero times infinity gives NaN. -/
def F32.mul : F32 → F32 → F32
  | F32.nan, _ => F32.nan
  | _, F32.nan => F32.nan
  | F32.inf a, F32.inf b => F32.inf (a != b)
  | F32.inf a, F32.fin n => if n = 0 then F32.nan else F32.inf (a != decide (n < 0))
  | F32.fin n, F32.inf b => if n = 0 then F32.nan else F32.inf (decide (n < 0) != b)
  | F32.fin a, F32.fin b => roundUnits (a * b) 149

/-- The comparison `a < b`; false when either side is NaN. -/
def F32.lt : F32 → F32 → Bool
  | F32.fin a, F32.fin b => decide (a < b)
  | F32.fin _, F32.inf b => !b
  | F32.inf a, F32.fin _ => a
  | F32.inf a, F32.inf b => a && !b
  | _, _ => false

/-- The comparison `a <= b`; false when either side is NaN. -/
def F32.le : F32 → F32 → Bool
  | F32.fin a, F32.fin b => decide (a ≤ b)
  | F32.fin _, F32.inf b => !b
  | F32.inf a, F32.fin _ => a
  | F32.inf a, F32.inf b => a || !b
  | _, _ => false

/-- The value is a NaN. -/
def F32.isNaN : F32 → Bool
  | F32.nan => true
  | _ => false

/-- The value is finite. -/
def F32.isFinite : F32 → Bool
  | F32.fin _ => true
  | _ => false

/-- The rational value of a finite float, `n / 2^149`; 0 for infinities
and NaN. -/
def F32.toRat : F32 → ℚ
  | F32.fin n => (n : ℚ) / 2 ^ 149
  | _ => 0

instance : Add F32 := ⟨F32.add⟩
instance : Sub F32 := ⟨F32.sub⟩
instance : Mul F32 := ⟨F32.mul⟩
instance : Neg F32 := ⟨F32.neg⟩

/-- The literal `0.1f`. -/
def tenth : F32 := roundRat 1 10

/-- The libm and glm functions whose results are not fixed by IEEE 754. -/
structure Libm where
  cos : F32 → F32
  sin : F32 → F32
  inversesqrt : F32 → F32
  sqrt : F32 → F32

/-- The literal `89.0f`. -/
def pitchLimit : F32 := F32.ofInt 89

/-- The constant `MOUSE_SENSITIVITY = 0.1f`. -/
def MOUSE_SENSITIVITY : F32 := tenth

/-- The constant `SCROLL_SENSITIVITY = 0.1f`. -/
def SCROLL_SENSITIVITY : F32 := tenth

/-- The constant `MOVE_SPEED = 25.0f`. -/
def MOVE_SPEED : F32 := F32.ofInt 25

/-- Degrees to radians, `glm::radians(d)`: the product with the `float`
nearest to 0.01745329251994329576923690768489. -/
def radians (d : F32) : F32 := d * roundRat 1745329251994329576923690768489 (10 ^ 32)

/-- Componentwise sum of two `vec3`. -/
def vadd (a b : Vec3 F32) : Vec3 F32 := ⟨a.x + b.x, a.y + b.y, a.z + b.z⟩

/-- Componentwise difference of two `vec3`. -/
def vsub (a b : Vec3 F32) : Vec3 F32 := ⟨a.x - b.x, a.y - b.y, a.z - b.z⟩

/-- Product of a `vec3` with a scalar. -/
def vscale (v : Vec3 F32) (k : F32) : Vec3 F32 := ⟨v.x * k, v.y * k, v.z * k⟩

/-- Scalar product, `glm::dot`. -/
def dot (a b : Vec3 F32) : F32 := a.x * b.x + a.y * b.y + a.z * b.z

/-- Vector product, `glm::cross`. -/
def cross (a b : Vec3 F32) : Vec3 F32 :=
  ⟨a.y * b.z - b.y * a.z, a.z * b.x - b.z * a.x, a.x * b.y - b.x * a.y⟩

/-- The vector `glm::normalize(v) = v * inversesqrt(dot(v, v))`. -/
def normalize (libm : Libm) (v : Vec3 F32) : Vec3 F32 := vscale v (libm.inversesqrt (dot v v))

/-- The values the globals are initialised with (lines 30-55, 424). -/
def init : State F32 where
  currentViewMode := ViewMode.MODEL_CENTERED
  modelCenter := ⟨F32.fin 0, F32.fin 0, F32.fin 0⟩
  modelRadius := F32.ofInt 5
  mc_Yaw := F32.ofInt (-90)
  mc_Pitch := F32.fin 0
  mc_Distance := F32.ofInt 10
  mc_ModelOffset := ⟨F32.fin 0, F32.fin 0, F32.fin 0⟩
  vc_Yaw := F32.ofInt (-90)
  vc_Pitch := F32.fin 0
  vc_CameraPos := ⟨F32.fin 0, F32.fin 0, F32.ofInt 10⟩
  vc_CameraFront := ⟨F32.fin 0, F32.fin 0, F32.ofInt (-1)⟩
  vc_CameraUp := ⟨F32.fin 0, F32.ofInt 1, F32.fin 0⟩
  firstMouse := true
  lastX := F32.ofInt 640
  lastY := F32.ofInt 360
  deltaTime := F32.fin 0
  lastFrame := F32.fin 0
  cKeyPressed := false
  windowShouldClose := false
  cout := []

/-- The two `if`s that limit a pitch angle (lines 386-387, 395-396); a
comparison with NaN is false. -/
def clampPitch (p : F32) : F32 :=
  let p1 := if F32.lt pitchLimit p then pitchLimit else p
  if F32.lt p1 (-pitchLimit) then -pitchLimit else p1

/-- The direction of yaw and pitch in degrees (lines 400-402, 449-451). -/
def direction (libm : Libm) (yaw pitch : F32) : Vec3 F32 :=
  ⟨libm.cos (radians yaw) * libm.cos (radians pitch),
   libm.sin (radians pitch),
   libm.sin (radians yaw) * libm.cos (radians pitch)⟩

/-- The cursor callback `mouse_callback` (lines 361-405), with the
conversion of its `double` arguments to `float`. -/
def mouse_callback (libm : Libm) (xposIn yposIn : Dyadic) (s : State F32) : State F32 :=
  let xpos := narrow xposIn
  let ypos := narrow yposIn
  if s.firstMouse then
    { s with lastX := xpos, lastY := ypos, firstMouse := false }
  else
    let xoffset := xpos - s.lastX
    let yoffset := s.lastY - ypos
    let s1 := { s with lastX := xpos, lastY := ypos }
    let xoffset := xoffset * MOUSE_SENSITIVITY
    let yoffset := yoffset * MOUSE_SENSITIVITY
    match s1.currentViewMode with
    | ViewMode.MODEL_CENTERED =>
      { s1 with mc_Yaw := s1.mc_Yaw + xoffset,
                mc_Pitch := clampPitch (s1.mc_Pitch + yoffset) }
    | ViewMode.VIEWPOINT_CENTERED =>
      let yaw := s1.vc_Yaw + xoffset
      let pitch := clampPitch (s1.vc_Pitch + yoffset)
      { s1 with vc_Yaw := yaw, vc_Pitch := pitch,
                vc_CameraFront := normalize libm (direction libm yaw pitch) }

/-- The wheel callback `scroll_callback` (lines 408-414). -/
def scroll_callback (_xoffset yoffset : Dyadic) (s : State F32) : State F32 :=
  match s.currentViewMode with
  | ViewMode.MODEL_CENTERED =>
    let d := s.mc_Distance - narrow yoffset * SCROLL_SENSITIVITY * s.mc_Distance
    { s with mc_Distance := if F32.lt d (s.modelRadius * tenth) then s.modelRadius * tenth else d }
  | ViewMode.VIEWPOINT_CENTERED => s

/-- The escape key (lines 419-421). -/
def processEscape (keys : Keys) (s : State F32) : State F32 :=
  if keys.escape then { s with windowShouldClose := true } else s

/-- The mode key C (lines 424-434), with the static local `cKeyPressed`. -/
def processToggle (keys : Keys) (s : State F32) : State F32 :=
  if keys.c then
    if !s.cKeyPressed then
      { s with currentViewMode := s.currentViewMode.toggle,
               cout := s.cout ++ [LogMsg.currentMode s.currentViewMode.toggle],
               cKeyPressed := true }
    else s
  else { s with cKeyPressed := false }

/-- The movement keys in `MODEL_CENTERED` mode (lines 440-460). -/
def moveModel (libm : Libm) (keys : Keys) (speed : F32) (s : State F32) : State F32 :=
  let s := if keys.w then
    { s with mc_ModelOffset := { s.mc_ModelOffset with y := s.mc_ModelOffset.y + speed } } else s
  let s := if keys.s then
    { s with mc_ModelOffset := { s.mc_ModelOffset with y := s.mc_ModelOffset.y - speed } } else s
  let mc_Front := normalize libm (direction libm s.mc_Yaw s.mc_Pitch)
  let mc_Right := normalize libm (cross mc_Front ⟨F32.fin 0, F32.ofInt 1, F32.fin 0⟩)
  let s := if keys.a then
    { s with mc_ModelOffset := vsub s.mc_ModelOffset (vscale mc_Right speed) } else s
  let s := if keys.d then
    { s with mc_ModelOffset := vadd s.mc_ModelOffset (vscale mc_Right speed) } else s
  s

/-- The movement keys in `VIEWPOINT_CENTERED` mode (lines 464-482). -/
def moveCamera (libm : Libm) (keys : Keys) (speed : F32) (s : State F32) : State F32 :=
  let s := if keys.w then
    { s with vc_CameraPos := vadd s.vc_CameraPos (vscale s.vc_CameraFront speed) } else s
  let s := if keys.s then
    { s with vc_CameraPos := vsub s.vc_CameraPos (vscale s.vc_CameraFront speed) } else s
  let vc_Right := normalize libm (cross s.vc_CameraFront s.vc_CameraUp)
  let s := if keys.a then
    { s with vc_CameraPos := vsub s.vc_CameraPos (vscale vc_Right speed) } else s
  let s := if keys.d then
    { s with vc_CameraPos := vadd s.vc_CameraPos (vscale vc_Right speed) } else s
  let s := if keys.space then
    { s with vc_CameraPos := vadd s.vc_CameraPos (vscale s.vc_CameraUp speed) } else s
  let s := if keys.leftShift then
    { s with vc_CameraPos := vsub s.vc_CameraPos (vscale s.vc_CameraUp speed) } else s
  s

/-- The per-frame key handler `processInput` (lines 417-484). -/
def processInput (libm : Libm) (keys : Keys) (s : State F32) : State F32 :=
  let s := processEscape keys s
  let s := processToggle keys s
  let speed := MOVE_SPEED * s.deltaTime
  match s.currentViewMode with
  | ViewMode.MODEL_CENTERED => moveModel libm keys speed s
  | ViewMode.VIEWPOINT_CENTERED => moveCamera libm keys speed s

/-- The frame-time update (lines 594-596); `glfwGetTime` returns a `double`. -/
def updateTime (time : Dyadic) (s : State F32) : State F32 :=
  { s with deltaTime := narrow time - s.lastFrame, lastFrame := narrow time }

/-- One thing that happens to the camera state: a cursor sample, a wheel
sample, a frame-time update, or a call of `processInput`. -/
inductive Event where
  | mouse (xpos ypos : Dyadic)
  | scroll (xoffset yoffset : Dyadic)
  | time (currentFrame : Dyadic)
  | input (keys : Keys)

/-- The effect of one event on the state. -/
def step (libm : Libm) (e : Event) (s : State F32) : State F32 :=
  match e with
  | Event.mouse x y => mouse_callback libm x y s
  | Event.scroll x y => scroll_callback x y s
  | Event.time t => updateTime t s
  | Event.input keys => processInput libm keys s

/-- The effect of a sequence of events, handled from left to right. -/
def run (libm : Libm) (es : List Event) (s : State F32) : State F32 :=
  es.foldl (fun acc e => step libm e acc) s

/-- A library given only where IEEE 754 and exactness fix its values:
`cos 0 = 1`, `sin 0 = 0`, `inversesqrt 1 = 1`, `inversesqrt 0 = +inf` and
`sqrt 9 = 3`; every other value is left as NaN. -/
def exactLibm : Libm where
  cos := fun x => if x = F32.fin 0 then F32.ofInt 1 else F32.nan
  sin := fun x => if x = F32.fin 0 then F32.fin 0 else F32.nan
  inversesqrt := fun x =>
    if x = F32.ofInt 1 then F32.ofInt 1
    else if x = F32.fin 0 then F32.inf false
    else F32.nan
  sqrt := fun x => if x = F32.ofInt 9 then F32.ofInt 3 else F32.nan

/-- Both pitch angles are numbers between -89 and 89 (so neither is NaN). -/
def PitchesInRange (s : State F32) : Prop :=
  (F32.le (-pitchLimit) s.mc_Pitch = true ∧ F32.le s.mc_Pitch pitchLimit = true) ∧
  (F32.le (-pitchLimit) s.vc_Pitch = true ∧ F32.le s.vc_Pitch pitchLimit = true)

/-- The pitch of the active mode. -/
def activePitch (s : State F32) : F32 :=
  match s.currentViewMode with
  | ViewMode.MODEL_CENTERED => s.mc_Pitch
  | ViewMode.VIEWPOINT_CENTERED => s.vc_Pitch

/-- The yaw of the active mode. -/
def activeYaw (s : State F32) : F32 :=
  match s.currentViewMode with
  | ViewMode.MODEL_CENTERED => s.mc_Yaw
  | ViewMode.VIEWPOINT_CENTERED => s.vc_Yaw

/-- Every cursor sample among the events converts to a finite `float`. -/
def SamplesFinite : List Event → Prop
  | [] => True
  | Event.mouse x y :: es =>
    (narrow x).isFinite = true ∧ (narrow y).isFinite = true ∧ SamplesFinite es
  | _ :: es => SamplesFinite es

/-- Componentwise minimum, `glm::min(a, b)`: `b` where `b < a`. -/
def vmin (a b : Vec3 F32) : Vec3 F32 :=
  ⟨if F32.lt b.x a.x then b.x else a.x, if F32.lt b.y a.y then b.y else a.y,
   if F32.lt b.z a.z then b.z else a.z⟩

/-- Componentwise maximum, `glm::max(a, b)`: `b` where `a < b`. -/
def vmax (a b : Vec3 F32) : Vec3 F32 :=
  ⟨if F32.lt a.x b.x then b.x else a.x, if F32.lt a.y b.y then b.y else a.y,
   if F32.lt a.z b.z then b.z else a.z⟩

/-- The literal `0.5f`. -/
def half : F32 := roundRat 1 2

/-- The two nested loops of `calculateModelCenterAndRadius` (lines 337-342). -/
def foldMinMax (meshes : List (Mesh F32)) (start : Vec3 F32 × Vec3 F32) : Vec3 F32 × Vec3 F32 :=
  meshes.foldl (fun acc mesh =>
    mesh.vertices.foldl (fun acc vertex =>
      (vmin acc.1 vertex.Position, vmax acc.2 vertex.Position)) acc) start

/-- The function `Model::calculateModelCenterAndRadius` (lines 326-351). -/
def calculateModelCenterAndRadius (libm : Libm) (meshes : List (Mesh F32))
    (s : State F32) : State F32 :=
  match meshes with
  | [] => { s with modelCenter := ⟨F32.fin 0, F32.fin 0, F32.fin 0⟩, modelRadius := F32.ofInt 5 }
  | mesh0 :: _ =>
    match mesh0.vertices with
    | [] => { s with modelCenter := ⟨F32.fin 0, F32.fin 0, F32.fin 0⟩,
                     modelRadius := F32.ofInt 5 }
    | vertex0 :: _ =>
      let box := foldMinMax meshes (vertex0.Position, vertex0.Position)
      let minPos := box.1
      let maxPos := box.2
      let center := vscale (vadd minPos maxPos) half
      let radius := libm.sqrt (dot (vsub maxPos minPos) (vsub maxPos minPos)) * half
      { s with modelCenter := center,
               modelRadius := radius,
               mc_Distance := radius * F32.ofInt 2,
               vc_CameraPos := vadd center ⟨F32.fin 0, F32.fin 0, radius * F32.ofInt 2⟩ }

/-- The value `max(d, floor)` as line 412 forms it. -/
def raiseTo (d floor : F32) : F32 := if F32.lt d floor then floor else d

end Binary32

/-! ## Lemmas on the callbacks -/

section CallbackLemmas

variable {K : Type} [LinearOrderedField K]

theorem clampPitch_bounds (p : K) : -89 ≤ clampPitch p ∧ clampPitch p ≤ 89 := by
  unfold clampPitch
  dsimp only
  split_ifs with h1 h2 h2
  · exact ⟨le_refl _, by norm_num⟩
  · exact ⟨by norm_num, le_refl _⟩
  · exact ⟨le_refl _, by norm_num⟩
  · exact ⟨not_lt.mp h2, not_lt.mp h1⟩

theorem clampPitch_eq (p : K) : clampPitch p = max (-89) (min 89 p) := by
  unfold clampPitch
  dsimp only
  split_ifs with h1 h2 h2
  · norm_num at h2
  · rw [min_eq_left (le_of_lt h1), max_eq_right (by norm_num)]
  · rw [min_eq_right (not_lt.mp h1), max_eq_left (le_of_lt h2)]
  · rw [min_eq_right (not_lt.mp h1), max_eq_right (not_lt.mp h2)]

theorem moveModel_frame (ops : FloatOps K) (keys : Keys) (speed : K) (s : State K) :
    ∃ o, moveModel ops keys speed s = { s with mc_ModelOffset := o } := by
  unfold moveModel
  dsimp only
  split_ifs <;> exact ⟨_, rfl⟩

theorem moveModel_idle (ops : FloatOps K) (keys : Keys) (speed : K) (s : State K)
    (hw : keys.w = false) (hs : keys.s = false) (ha : keys.a = false) (hd : keys.d = false) :
    moveModel ops keys speed s = s := by
  unfold moveModel
  simp [hw, hs, ha, hd]

theorem moveCamera_frame (ops : FloatOps K) (keys : Keys) (speed : K) (s : State K) :
    ∃ p, moveCamera ops keys speed s = { s with vc_CameraPos := p } := by
  unfold moveCamera
  dsimp only
  split_ifs <;> exact ⟨_, rfl⟩

theorem processEscape_frame (keys : Keys) (s : State K) :
    ∃ b, processEscape keys s = { s with windowShouldClose := b } := by
  unfold processEscape
  split_ifs <;> exact ⟨_, rfl⟩

theorem processToggle_frame (keys : Keys) (s : State K) :
    ∃ l, processToggle keys s =
      { s with currentViewMode :=
                 if keys.c = true ∧ s.cKeyPressed = false then s.currentViewMode.toggle
                 else s.currentViewMode,
               cout := l, cKeyPressed := keys.c } := by
  rcases s with ⟨m, c, r, y1, p1, d1, o1, y2, p2, cp, cf, cu, fm, lx, ly, dt, lf, ck, wc, co⟩
  cases hc : keys.c <;> cases ck <;> simp [processToggle, hc]

theorem processInput_frame (ops : FloatOps K) (keys : Keys) (s : State K) :
    ∃ b l o p, processInput ops keys s =
        { s with currentViewMode := nextMode keys s, cout := l, cKeyPressed := keys.c,
                 windowShouldClose := b, mc_ModelOffset := o, vc_CameraPos := p } ∧
      (nextMode keys s = ViewMode.VIEWPOINT_CENTERED → o = s.mc_ModelOffset) ∧
      (keys.w = false → keys.s = false → keys.a = false → keys.d = false →
        o = s.mc_ModelOffset) := by
  obtain ⟨b, hb⟩ := processEscape_frame keys s
  obtain ⟨l, hl⟩ := processToggle_frame keys (processEscape keys s)
  unfold processInput
  dsimp only
  rw [hl, hb]
  dsimp only
  cases hm : nextMode keys s
  · have hm2 : (if keys.c = true ∧ s.cKeyPressed = false then s.currentViewMode.toggle
        else s.currentViewMode) = ViewMode.MODEL_CENTERED := hm
    rw [hm2]
    dsimp only
    obtain ⟨o, ho⟩ := moveModel_frame ops keys (MOVE_SPEED * s.deltaTime)
      { s with currentViewMode := ViewMode.MODEL_CENTERED, cout := l, cKeyPressed := keys.c,
               windowShouldClose := b }
    refine ⟨b, l, (moveModel ops keys (MOVE_SPEED * s.deltaTime)
      { s with currentViewMode := ViewMode.MODEL_CENTERED, cout := l, cKeyPressed := keys.c,
               windowShouldClose := b }).mc_ModelOffset, s.vc_CameraPos, ?_, ?_, ?_⟩
    · rw [ho]
    · intro h
      cases h
    · intro hw hs ha hd
      rw [moveModel_idle ops keys _ _ hw hs ha hd]
  · have hm2 : (if keys.c = true ∧ s.cKeyPressed = false then s.currentViewMode.toggle
        else s.currentViewMode) = ViewMode.VIEWPOINT_CENTERED := hm
    rw [hm2]
    dsimp only
    obtain ⟨p, hp⟩ := moveCamera_frame ops keys (MOVE_SPEED * s.deltaTime)
      { s with currentViewMode := ViewMode.VIEWPOINT_CENTERED, cout := l, cKeyPressed := keys.c,
               windowShouldClose := b }
    refine ⟨b, l, s.mc_ModelOffset, p, ?_, fun _ => rfl, fun _ _ _ _ => rfl⟩
    rw [hp]

theorem processInput_mode (ops : FloatOps K) (keys : Keys) (s : State K) :
    (processInput ops keys s).currentViewMode = nextMode keys s := by
  obtain ⟨b, l, o, p, h, -, -⟩ := processInput_frame ops keys s
  rw [h]

theorem processInput_cKeyPressed (ops : FloatOps K) (keys : Keys) (s : State K) :
    (processInput ops keys s).cKeyPressed = keys.c := by
  obtain ⟨b, l, o, p, h, -, -⟩ := processInput_frame ops keys s
  rw [h]

theorem processInput_pitches (ops : FloatOps K) (keys : Keys) (s : State K) :
    (processInput ops keys s).mc_Pitch = s.mc_Pitch ∧
      (processInput ops keys s).vc_Pitch = s.vc_Pitch := by
  obtain ⟨b, l, o, p, h, -, -⟩ := processInput_frame ops keys s
  rw [h]
  exact ⟨rfl, rfl⟩

theorem processInput_orbit_viewpoint (ops : FloatOps K) (keys : Keys) (s : State K)
    (hv : (processInput ops keys s).currentViewMode = ViewMode.VIEWPOINT_CENTERED) :
    (processInput ops keys s).orbit = s.orbit := by
  rw [processInput_mode] at hv
  obtain ⟨b, l, o, p, h, ho, -⟩ := processInput_frame ops keys s
  rw [h, ho hv]
  rfl

theorem processInput_orbit_idle (ops : FloatOps K) (keys : Keys) (s : State K)
    (hw : keys.w = false) (hs : keys.s = false) (ha : keys.a = false) (hd : keys.d = false) :
    (processInput ops keys s).orbit = s.orbit := by
  obtain ⟨b, l, o, p, h, -, ho⟩ := processInput_frame ops keys s
  rw [h, ho hw hs ha hd]
  rfl

theorem mouse_callback_first (ops : FloatOps K) (x y : K) (s : State K)
    (h : s.firstMouse = true) :
    mouse_callback ops x y s = { s with lastX := x, lastY := y, firstMouse := false } := by
  unfold mouse_callback
  rw [if_pos h]

theorem mouse_callback_model (ops : FloatOps K) (x y : K) (s : State K)
    (h : s.firstMouse = false) (hm : s.currentViewMode = ViewMode.MODEL_CENTERED) :
    mouse_callback ops x y s =
      { s with lastX := x, lastY := y,
               mc_Yaw := s.mc_Yaw + (x - s.lastX) * MOUSE_SENSITIVITY,
               mc_Pitch := clampPitch (s.mc_Pitch + (s.lastY - y) * MOUSE_SENSITIVITY) } := by
  unfold mouse_callback
  simp [h, hm]

theorem mouse_callback_viewpoint (ops : FloatOps K) (x y : K) (s : State K)
    (h : s.firstMouse = false) (hm : s.currentViewMode = ViewMode.VIEWPOINT_CENTERED) :
    ∃ front, mouse_callback ops x y s =
      { s with lastX := x, lastY := y,
               vc_Yaw := s.vc_Yaw + (x - s.lastX) * MOUSE_SENSITIVITY,
               vc_Pitch := clampPitch (s.vc_Pitch + (s.lastY - y) * MOUSE_SENSITIVITY),
               vc_CameraFront := front } := by
  unfold mouse_callback
  simp [h, hm]

theorem mouse_callback_mode (ops : FloatOps K) (x y : K) (s : State K) :
    (mouse_callback ops x y s).currentViewMode = s.currentViewMode := by
  cases hf : s.firstMouse
  · cases hm : s.currentViewMode
    · rw [mouse_callback_model ops x y s hf hm]
      exact hm
    · obtain ⟨front, h⟩ := mouse_callback_viewpoint ops x y s hf hm
      rw [h]
      exact hm
  · rw [mouse_callback_first ops x y s hf]

theorem mouse_callback_pitches (ops : FloatOps K) (x y : K) (s : State K)
    (h : s.PitchesInRange) : (mouse_callback ops x y s).PitchesInRange := by
  cases hf : s.firstMouse
  · cases hm : s.currentViewMode
    · rw [mouse_callback_model ops x y s hf hm]
      exact ⟨clampPitch_bounds _, h.2⟩
    · obtain ⟨front, hv⟩ := mouse_callback_viewpoint ops x y s hf hm
      rw [hv]
      exact ⟨h.1, clampPitch_bounds _⟩
  · rw [mouse_callback_first ops x y s hf]
    exact h

theorem mouse_callback_orbit_viewpoint (ops : FloatOps K) (x y : K) (s : State K)
    (hm : s.currentViewMode = ViewMode.VIEWPOINT_CENTERED) :
    (mouse_callback ops x y s).orbit = s.orbit := by
  cases hf : s.firstMouse
  · obtain ⟨front, hv⟩ := mouse_callback_viewpoint ops x y s hf hm
    rw [hv]
    rfl
  · rw [mouse_callback_first ops x y s hf]
    rfl

theorem mouse_callback_active (ops : FloatOps K) (x y : K) (s : State K)
    (h : s.firstMouse = false) :
    (mouse_callback ops x y s).activeYaw = s.activeYaw + (x - s.lastX) * MOUSE_SENSITIVITY ∧
      (mouse_callback ops x y s).activePitch =
        clampPitch (s.activePitch + (s.lastY - y) * MOUSE_SENSITIVITY) := by
  cases hm : s.currentViewMode
  · rw [mouse_callback_model ops x y s h hm]
    unfold State.activeYaw State.activePitch
    simp only [hm]
    exact ⟨trivial, trivial⟩
  · obtain ⟨front, hv⟩ := mouse_callback_viewpoint ops x y s h hm
    rw [hv]
    unfold State.activeYaw State.activePitch
    simp only [hm]
    exact ⟨trivial, trivial⟩

theorem scroll_callback_mode (x y : K) (s : State K) :
    (scroll_callback x y s).currentViewMode = s.currentViewMode := by
  unfold scroll_callback
  cases hm : s.currentViewMode <;> simp only [hm]

theorem scroll_callback_cKeyPressed (x y : K) (s : State K) :
    (scroll_callback x y s).cKeyPressed = s.cKeyPressed := by
  unfold scroll_callback
  cases hm : s.currentViewMode <;> rfl

theorem mouse_callback_cKeyPressed (ops : FloatOps K) (x y : K) (s : State K) :
    (mouse_callback ops x y s).cKeyPressed = s.cKeyPressed := by
  cases hf : s.firstMouse
  · cases hm : s.currentViewMode
    · rw [mouse_callback_model ops x y s hf hm]
    · obtain ⟨front, h⟩ := mouse_callback_viewpoint ops x y s hf hm
      rw [h]
  · rw [mouse_callback_first ops x y s hf]

theorem step_pitches (ops : FloatOps K) (e : Event K) (s : State K)
    (h : s.PitchesInRange) : (step ops e s).PitchesInRange := by
  cases e with
  | mouse x y => exact mouse_callback_pitches ops x y s h
  | scroll x y =>
    unfold step scroll_callback
    cases hm : s.currentViewMode <;> exact h
  | time t => exact h
  | input keys =>
    unfold step State.PitchesInRange
    dsimp only
    rw [(processInput_pitches ops keys s).1, (processInput_pitches ops keys s).2]
    exact h

theorem run_pitches (ops : FloatOps K) (es : List (Event K)) (s : State K)
    (h : s.PitchesInRange) : (run ops es s).PitchesInRange := by
  induction es generalizing s with
  | nil => exact h
  | cons e es ih => exact ih (step ops e s) (step_pitches ops e s h)

theorem init_pitches : (State.init : State K).PitchesInRange := by
  unfold State.PitchesInRange State.init
  norm_num

theorem step_orbit_viewpoint (ops : FloatOps K) (e : Event K) (s : State K)
    (hv : (step ops e s).currentViewMode = ViewMode.VIEWPOINT_CENTERED) :
    (step ops e s).orbit = s.orbit := by
  cases e with
  | mouse x y =>
    have hm : s.currentViewMode = ViewMode.VIEWPOINT_CENTERED := by
      rw [← mouse_callback_mode ops x y s]
      exact hv
    exact mouse_callback_orbit_viewpoint ops x y s hm
  | scroll x y =>
    unfold step scroll_callback at hv ⊢
    cases hm : s.currentViewMode
    · rw [hm] at hv
      cases hv
    · rfl
  | time t => rfl
  | input keys => exact processInput_orbit_viewpoint ops keys s hv

theorem run_orbit_viewpoint (ops : FloatOps K) (es : List (Event K)) (s : State K)
    (h : StaysViewpoint ops es s) : (run ops es s).orbit = s.orbit := by
  induction es generalizing s with
  | nil => rfl
  | cons e es ih =>
    have h1 : (run ops (e :: es) s) = run ops es (step ops e s) := rfl
    rw [h1, ih (step ops e s) h.2, step_orbit_viewpoint ops e s h.1]

theorem run_mode_viewpoint (ops : FloatOps K) (es : List (Event K)) (s : State K)
    (hs : s.currentViewMode = ViewMode.VIEWPOINT_CENTERED) (h : StaysViewpoint ops es s) :
    (run ops es s).currentViewMode = ViewMode.VIEWPOINT_CENTERED := by
  induction es generalizing s with
  | nil => exact hs
  | cons e es ih => exact ih (step ops e s) h.1 h.2

theorem frameInput_held (ops : FloatOps K) (f : K × Keys) (s : State K)
    (hc : f.2.c = true) :
    (frameInput ops f s).currentViewMode =
        (if s.cKeyPressed = false then s.currentViewMode.toggle else s.currentViewMode) ∧
      (frameInput ops f s).cKeyPressed = true := by
  unfold frameInput
  rw [processInput_mode, processInput_cKeyPressed]
  refine ⟨?_, hc⟩
  unfold nextMode updateTime
  simp [hc]

theorem frames_pressed (ops : FloatOps K) (fs : List (K × Keys)) (s : State K)
    (hp : s.cKeyPressed = true) (hheld : ∀ f ∈ fs, f.2.c = true) :
    (frames ops fs s).currentViewMode = s.currentViewMode ∧
      (frames ops fs s).cKeyPressed = true := by
  induction fs generalizing s with
  | nil => exact ⟨rfl, hp⟩
  | cons f fs ih =>
    have hf := frameInput_held ops f s (hheld f (List.mem_cons_self f fs))
    have h := ih (frameInput ops f s) hf.2 (fun g hg => hheld g (List.mem_cons_of_mem f hg))
    have e : frames ops (f :: fs) s = frames ops fs (frameInput ops f s) := rfl
    rw [e, h.1, hf.1, if_neg (by rw [hp]; decide)]
    exact ⟨rfl, h.2⟩

theorem frames_held (ops : FloatOps K) (fs : List (K × Keys)) (s : State K)
    (hrel : s.cKeyPressed = false) (hheld : ∀ f ∈ fs, f.2.c = true) (hn : 1 ≤ fs.length) :
    (frames ops fs s).currentViewMode = s.currentViewMode.toggle ∧
      (frames ops fs s).cKeyPressed = true := by
  cases fs with
  | nil => simp at hn
  | cons f fs =>
    have hf := frameInput_held ops f s (hheld f (List.mem_cons_self f fs))
    have h := frames_pressed ops fs (frameInput ops f s) hf.2
      (fun g hg => hheld g (List.mem_cons_of_mem f hg))
    have e : frames ops (f :: fs) s = frames ops fs (frameInput ops f s) := rfl
    rw [e, h.1, hf.1, if_pos hrel]
    exact ⟨rfl, h.2⟩

end CallbackLemmas

/-! ## The camera state machine -/

section CameraClaims

variable {K : Type} [LinearOrderedField K]

/-- The exact-arithmetic reading of the pitch limit: after `mouse_callback` on a state with `firstMouse = false`, for any
cursor sample, the pitch of the active mode lies between -89 and 89 (and the
mode is the one before); the initial state has both pitches 0, and from it,
as from any state with both pitches in range, every state reached through
cursor, wheel, clock and `processInput` events has both pitches between -89
and 89. -/
theorem pitch_clamped (ops : FloatOps K) (s : State K) (x y : K) (es : List (Event K))
    (s0 : State K) (hfirst : s.firstMouse = false) (h0 : s0.PitchesInRange) :
    ((mouse_callback ops x y s).currentViewMode = s.currentViewMode ∧
      -89 ≤ (mouse_callback ops x y s).activePitch ∧
      (mouse_callback ops x y s).activePitch ≤ 89) ∧
    ((State.init : State K).mc_Pitch = 0 ∧ (State.init : State K).vc_Pitch = 0) ∧
    (run ops es State.init).PitchesInRange ∧
    (run ops es s0).PitchesInRange := by
  refine ⟨⟨mouse_callback_mode ops x y s, ?_⟩, ⟨rfl, rfl⟩,
    run_pitches ops es _ init_pitches, run_pitches ops es s0 h0⟩
  cases hm : s.currentViewMode
  · rw [mouse_callback_model ops x y s hfirst hm]
    unfold State.activePitch
    dsimp only
    rw [hm]
    exact clampPitch_bounds _
  · obtain ⟨front, hv⟩ := mouse_callback_viewpoint ops x y s hfirst hm
    rw [hv]
    unfold State.activePitch
    dsimp only
    rw [hm]
    exact clampPitch_bounds _

theorem pitch_clamped_witness :
    ({ (State.init : State ℝ) with firstMouse := false }).firstMouse = false ∧
    (State.init : State ℝ).PitchesInRange ∧
    -89 ≤ (mouse_callback realOps 0 (-1000000)
      { (State.init : State ℝ) with firstMouse := false }).activePitch ∧
    (mouse_callback realOps 0 (-1000000)
      { (State.init : State ℝ) with firstMouse := false }).activePitch ≤ 89 ∧
    (run realOps [Event.mouse 0 0, Event.mouse 5 (-1000000), Event.input Keys.onlyC,
      Event.mouse 7 1000000] State.init).PitchesInRange :=
  have h := pitch_clamped realOps { (State.init : State ℝ) with firstMouse := false } 0 (-1000000)
    [Event.mouse 0 0, Event.mouse 5 (-1000000), Event.input Keys.onlyC, Event.mouse 7 1000000]
    State.init rfl init_pitches
  ⟨rfl, init_pitches, h.1.2.1, h.1.2.2, h.2.2.1⟩

/-- The exact-arithmetic reading of the zoom: in `MODEL_CENTERED` mode, for any wheel value, `scroll_callback` sets
`mc_Distance` to the larger of `mc_Distance * (1 - scrollY * 0.1)` and
`0.1 * modelRadius`, so the new distance is at least `0.1 * modelRadius`;
in `VIEWPOINT_CENTERED` mode it changes nothing.  The sign of `modelRadius`
plays no part. -/
theorem scroll_distance_floor (xoffset yoffset : K) (s v : State K)
    (hm : s.currentViewMode = ViewMode.MODEL_CENTERED)
    (hv : v.currentViewMode = ViewMode.VIEWPOINT_CENTERED) :
    (scroll_callback xoffset yoffset s).mc_Distance =
        max (s.mc_Distance * (1 - yoffset * (1 / 10))) (1 / 10 * s.modelRadius) ∧
      1 / 10 * s.modelRadius ≤ (scroll_callback xoffset yoffset s).mc_Distance ∧
      scroll_callback xoffset yoffset v = v := by
  have hd : (scroll_callback xoffset yoffset s).mc_Distance =
      max (s.mc_Distance * (1 - yoffset * (1 / 10))) (1 / 10 * s.modelRadius) := by
    unfold scroll_callback
    rw [hm]
    dsimp only
    have e1 : s.mc_Distance - yoffset * SCROLL_SENSITIVITY * s.mc_Distance =
        s.mc_Distance * (1 - yoffset * (1 / 10)) := by
      unfold SCROLL_SENSITIVITY
      ring
    have e2 : s.modelRadius * (1 / 10) = 1 / 10 * s.modelRadius := by ring
    rw [e1, e2]
    split_ifs with h
    · rw [max_eq_right (le_of_lt h)]
    · rw [max_eq_left (not_lt.mp h)]
  refine ⟨hd, ?_, ?_⟩
  · rw [hd]
    exact le_max_right _ _
  · unfold scroll_callback
    rw [hv]

theorem scroll_distance_floor_witness :
    (State.init : State ℚ).currentViewMode = ViewMode.MODEL_CENTERED ∧
    ({ (State.init : State ℚ) with currentViewMode := ViewMode.VIEWPOINT_CENTERED }).currentViewMode
      = ViewMode.VIEWPOINT_CENTERED ∧
    (scroll_callback 0 25 (State.init : State ℚ)).mc_Distance =
      max ((State.init : State ℚ).mc_Distance * (1 - 25 * (1 / 10)))
        (1 / 10 * (State.init : State ℚ).modelRadius) ∧
    1 / 10 * (State.init : State ℚ).modelRadius ≤
      (scroll_callback 0 25 (State.init : State ℚ)).mc_Distance :=
  have h := scroll_distance_floor (0 : ℚ) 25 State.init
    { (State.init : State ℚ) with currentViewMode := ViewMode.VIEWPOINT_CENTERED } rfl rfl
  ⟨rfl, rfl, h.1, h.2.1⟩

/-- C3: starting with the mode key released (`cKeyPressed = false`), after
each of the first `n` of some consecutive frames that all have C down
(`1 ≤ n`), the mode is the opposite of the starting mode, that is
`VIEWPOINT_CENTERED` when it started as `MODEL_CENTERED` and `MODEL_CENTERED`
when it started as `VIEWPOINT_CENTERED`, and `cKeyPressed` is set: the mode
flips on the first frame and stays on the later ones.  Moreover a call of
`processInput` that changes the mode was entered with `cKeyPressed = false`,
and `cKeyPressed` after a call is the state of C in that call, so a further
switch needs a frame with C released. -/
theorem toggle_once_while_held (ops : FloatOps K) (s : State K) (fs : List (K × Keys))
    (n : Nat) (hrel : s.cKeyPressed = false) (hheld : ∀ f ∈ fs, f.2.c = true)
    (hn : 1 ≤ n) (hle : n ≤ fs.length) :
    ((s.currentViewMode = ViewMode.MODEL_CENTERED →
        (frames ops (fs.take 1) s).currentViewMode = ViewMode.VIEWPOINT_CENTERED ∧
        (frames ops (fs.take n) s).currentViewMode = ViewMode.VIEWPOINT_CENTERED) ∧
      (s.currentViewMode = ViewMode.VIEWPOINT_CENTERED →
        (frames ops (fs.take 1) s).currentViewMode = ViewMode.MODEL_CENTERED ∧
        (frames ops (fs.take n) s).currentViewMode = ViewMode.MODEL_CENTERED)) ∧
    (frames ops (fs.take 1) s).currentViewMode ≠ s.currentViewMode ∧
    (frames ops (fs.take n) s).currentViewMode ≠ s.currentViewMode ∧
    (frames ops (fs.take n) s).cKeyPressed = true ∧
    (∀ (keys : Keys) (t : State K),
      (processInput ops keys t).cKeyPressed = keys.c ∧
      ((processInput ops keys t).currentViewMode ≠ t.currentViewMode →
        t.cKeyPressed = false ∧ keys.c = true)) := by
  have key : ∀ m, 1 ≤ m → m ≤ fs.length →
      (frames ops (fs.take m) s).currentViewMode = s.currentViewMode.toggle ∧
      (frames ops (fs.take m) s).cKeyPressed = true := by
    intro m hm hml
    exact frames_held ops (fs.take m) s hrel
      (fun f hf => hheld f (List.mem_of_mem_take hf))
      (by rw [List.length_take]; omega)
  have h1 := (key 1 (le_refl 1) (le_trans hn hle)).1
  have h2 := (key n hn hle).1
  refine ⟨⟨?_, ?_⟩, ?_, ?_, (key n hn hle).2, ?_⟩
  · intro hm
    rw [h1, h2, hm]
    exact ⟨rfl, rfl⟩
  · intro hm
    rw [h1, h2, hm]
    exact ⟨rfl, rfl⟩
  · rw [h1]
    cases s.currentViewMode <;> simp [ViewMode.toggle]
  · rw [h2]
    cases s.currentViewMode <;> simp [ViewMode.toggle]
  · intro keys t
    refine ⟨processInput_cKeyPressed ops keys t, ?_⟩
    intro hne
    rw [processInput_mode] at hne
    unfold nextMode at hne
    by_cases hc : keys.c = true ∧ t.cKeyPressed = false
    · exact ⟨hc.2, hc.1⟩
    · rw [if_neg hc] at hne
      exact absurd rfl hne

theorem toggle_once_while_held_witness :
    ((State.init : State ℝ).cKeyPressed = false ∧
      (State.init : State ℝ).currentViewMode = ViewMode.MODEL_CENTERED ∧
      (frames realOps [((0 : ℝ), Keys.onlyC), (1, Keys.onlyC), (2, Keys.onlyC)]
        State.init).currentViewMode = ViewMode.VIEWPOINT_CENTERED) ∧
    (({ (State.init : State ℝ) with currentViewMode := ViewMode.VIEWPOINT_CENTERED }).cKeyPressed
        = false ∧
      (frames realOps [((0 : ℝ), Keys.onlyC), (1, Keys.onlyC), (2, Keys.onlyC)]
        { (State.init : State ℝ) with currentViewMode := ViewMode.VIEWPOINT_CENTERED }
        ).currentViewMode = ViewMode.MODEL_CENTERED) :=
  have hheld : ∀ f ∈ [((0 : ℝ), Keys.onlyC), (1, Keys.onlyC), (2, Keys.onlyC)],
      f.2.c = true := by
    intro f hf
    simp only [List.mem_cons, List.mem_singleton, List.not_mem_nil, or_false] at hf
    rcases hf with h | h | h <;> rw [h] <;> rfl
  ⟨⟨rfl, rfl, ((toggle_once_while_held realOps (State.init : State ℝ)
      [((0 : ℝ), Keys.onlyC), (1, Keys.onlyC), (2, Keys.onlyC)] 3 rfl hheld
      (by decide) (by decide)).1.1 rfl).2⟩,
    ⟨rfl, ((toggle_once_while_held realOps
      { (State.init : State ℝ) with currentViewMode := ViewMode.VIEWPOINT_CENTERED }
      [((0 : ℝ), Keys.onlyC), (1, Keys.onlyC), (2, Keys.onlyC)] 3 rfl hheld
      (by decide) (by decide)).1.2 rfl).2⟩⟩

/-- The exact-arithmetic reading of the first two cursor samples: on a state
with `firstMouse = true`, as the initial state is, the
first cursor sample only records the position and clears `firstMouse`, so
yaw and pitch of both modes and `vc_CameraFront` keep their values; the
second sample then adds `0.1 * (x2 - x1)` to the yaw of the active mode and
`0.1 * (y1 - y2)` to its pitch, the pitch being limited to -89 .. 89. -/
theorem first_sample_suppressed (ops : FloatOps K) (s : State K) (x1 y1 x2 y2 : K)
    (h : s.firstMouse = true) :
    (State.init : State K).firstMouse = true ∧
    mouse_callback ops x1 y1 s = { s with lastX := x1, lastY := y1, firstMouse := false } ∧
    ((mouse_callback ops x1 y1 s).mc_Yaw = s.mc_Yaw ∧
      (mouse_callback ops x1 y1 s).mc_Pitch = s.mc_Pitch ∧
      (mouse_callback ops x1 y1 s).vc_Yaw = s.vc_Yaw ∧
      (mouse_callback ops x1 y1 s).vc_Pitch = s.vc_Pitch ∧
      (mouse_callback ops x1 y1 s).vc_CameraFront = s.vc_CameraFront) ∧
    (mouse_callback ops x2 y2 (mouse_callback ops x1 y1 s)).currentViewMode =
      s.currentViewMode ∧
    (mouse_callback ops x2 y2 (mouse_callback ops x1 y1 s)).activeYaw =
      s.activeYaw + 1 / 10 * (x2 - x1) ∧
    (mouse_callback ops x2 y2 (mouse_callback ops x1 y1 s)).activePitch =
      max (-89) (min 89 (s.activePitch + 1 / 10 * (y1 - y2))) := by
  have h1 := mouse_callback_first ops x1 y1 s h
  refine ⟨rfl, h1, ?_, ?_, ?_⟩
  · rw [h1]
    exact ⟨rfl, rfl, rfl, rfl, rfl⟩
  · rw [mouse_callback_mode, mouse_callback_mode]
  · rw [h1]
    have h2 := mouse_callback_active ops x2 y2
      { s with lastX := x1, lastY := y1, firstMouse := false } rfl
    constructor
    · refine h2.1.trans ?_
      show s.activeYaw + (x2 - x1) * MOUSE_SENSITIVITY = s.activeYaw + 1 / 10 * (x2 - x1)
      unfold MOUSE_SENSITIVITY
      ring
    · refine h2.2.trans ?_
      rw [clampPitch_eq]
      show max (-89) (min 89 (s.activePitch + (y1 - y2) * MOUSE_SENSITIVITY)) =
        max (-89) (min 89 (s.activePitch + 1 / 10 * (y1 - y2)))
      unfold MOUSE_SENSITIVITY
      congr 2
      ring

theorem first_sample_suppressed_witness :
    (State.init : State ℝ).firstMouse = true ∧
    (mouse_callback realOps 30 2000 (mouse_callback realOps 10 20 State.init)).activeYaw =
      (State.init : State ℝ).activeYaw + 1 / 10 * (30 - 10) ∧
    (mouse_callback realOps 30 2000 (mouse_callback realOps 10 20 State.init)).activePitch =
      max (-89) (min 89 ((State.init : State ℝ).activePitch + 1 / 10 * (20 - 2000))) :=
  ⟨rfl, (first_sample_suppressed realOps (State.init : State ℝ) 10 20 30 2000 rfl).2.2.2.2⟩

/-- C5: from a state in `MODEL_CENTERED` mode with the mode key released, a
`processInput` call with C down, then any events during which the mode stays
`VIEWPOINT_CENTERED`, then (the key having been released) a `processInput`
call with C down and none of W, S, A, D down, ends in `MODEL_CENTERED` mode
with `mc_Yaw`, `mc_Pitch`, `mc_Distance` and `mc_ModelOffset` as they were
before the first call. -/
theorem orbit_preserved_by_round_trip (ops : FloatOps K) (s : State K) (k1 k2 : Keys)
    (es : List (Event K))
    (hm : s.currentViewMode = ViewMode.MODEL_CENTERED) (hrel : s.cKeyPressed = false)
    (hc1 : k1.c = true)
    (hstay : StaysViewpoint ops es (processInput ops k1 s))
    (hrel2 : (run ops es (processInput ops k1 s)).cKeyPressed = false)
    (hc2 : k2.c = true)
    (hw : k2.w = false) (hs : k2.s = false) (ha : k2.a = false) (hd : k2.d = false) :
    (processInput ops k1 s).currentViewMode = ViewMode.VIEWPOINT_CENTERED ∧
    (processInput ops k2 (run ops es (processInput ops k1 s))).currentViewMode =
      ViewMode.MODEL_CENTERED ∧
    (processInput ops k2 (run ops es (processInput ops k1 s))).mc_Yaw = s.mc_Yaw ∧
    (processInput ops k2 (run ops es (processInput ops k1 s))).mc_Pitch = s.mc_Pitch ∧
    (processInput ops k2 (run ops es (processInput ops k1 s))).mc_Distance = s.mc_Distance ∧
    (processInput ops k2 (run ops es (processInput ops k1 s))).mc_ModelOffset =
      s.mc_ModelOffset := by
  have h1 : (processInput ops k1 s).currentViewMode = ViewMode.VIEWPOINT_CENTERED := by
    rw [processInput_mode]
    unfold nextMode
    rw [if_pos ⟨hc1, hrel⟩, hm]
    rfl
  have h2 := run_mode_viewpoint ops es _ h1 hstay
  have h3 : (processInput ops k2 (run ops es (processInput ops k1 s))).orbit = s.orbit := by
    rw [processInput_orbit_idle ops k2 _ hw hs ha hd, run_orbit_viewpoint ops es _ hstay,
      processInput_orbit_viewpoint ops k1 s h1]
  have h4 : (processInput ops k2 (run ops es (processInput ops k1 s))).currentViewMode =
      ViewMode.MODEL_CENTERED := by
    rw [processInput_mode]
    unfold nextMode
    rw [if_pos ⟨hc2, hrel2⟩, h2]
    rfl
  unfold State.orbit at h3
  simp only [Prod.mk.injEq] at h3
  exact ⟨h1, h4, h3.1, h3.2.1, h3.2.2.1, h3.2.2.2⟩

theorem orbit_preserved_by_round_trip_witness :
    (State.init : State ℝ).currentViewMode = ViewMode.MODEL_CENTERED ∧
    (State.init : State ℝ).cKeyPressed = false ∧
    (processInput realOps Keys.onlyC (run realOps
      [Event.mouse 1 2, Event.mouse 30 40, Event.scroll 0 1, Event.time 1,
        Event.input Keys.onlyW, Event.input Keys.released]
      (processInput realOps Keys.onlyC State.init))).mc_ModelOffset =
      (State.init : State ℝ).mc_ModelOffset :=
  ⟨rfl, rfl, (orbit_preserved_by_round_trip realOps (State.init : State ℝ) Keys.onlyC Keys.onlyC
    [Event.mouse 1 2, Event.mouse 30 40, Event.scroll 0 1, Event.time 1,
      Event.input Keys.onlyW, Event.input Keys.released]
    rfl rfl rfl
    (by
      simp only [StaysViewpoint, step, mouse_callback_mode, scroll_callback_mode,
        processInput_mode, nextMode, processInput_cKeyPressed, updateTime,
        mouse_callback_cKeyPressed, scroll_callback_cKeyPressed]
      simp [Keys.onlyC, Keys.onlyW, Keys.released, State.init, ViewMode.toggle])
    (by
      simp only [run, List.foldl, step]
      rw [processInput_cKeyPressed]
      rfl)
    rfl rfl rfl rfl rfl).2.2.2.2.2⟩

end CameraClaims

/-! ## The import pipeline and the bounding volume -/

section ImportLemmas

variable {K : Type} [LinearOrderedField K]

theorem foldl_push_back {α β : Type} (f : α → β) (l : List α) (init : List β) :
    l.foldl (fun acc a => acc ++ [f a]) init = init ++ l.map f := by
  induction l generalizing init with
  | nil => simp
  | cons a l ih => simp [ih]

theorem foldl_faces (faces : List AiFace) (init : List Nat) :
    faces.foldl (fun idx face => face.mIndices.foldl (fun idx j => idx ++ [j]) idx) init =
      init ++ faceIndices faces := by
  induction faces generalizing init with
  | nil => simp [faceIndices]
  | cons f fs ih =>
    have h := foldl_push_back (fun j : Nat => j) f.mIndices init
    simp only [List.map_id'] at h
    simp only [List.foldl_cons, h, ih, faceIndices, List.map_cons, List.flatten_cons,
      List.append_assoc]

theorem faceIndices_length (faces : List AiFace)
    (htri : ∀ f ∈ faces, f.mIndices.length = 3) :
    (faceIndices faces).length = 3 * faces.length := by
  induction faces with
  | nil => rfl
  | cons f fs ih =>
    have h1 := htri f (List.mem_cons_self f fs)
    have h2 := ih (fun g hg => htri g (List.mem_cons_of_mem f hg))
    unfold faceIndices at h2 ⊢
    simp only [List.map_cons, List.flatten_cons, List.length_append, List.length_cons, h1, h2]
    omega

theorem processMesh_vertices (mesh : AiMesh K) :
    (processMesh mesh).vertices =
      (List.range mesh.mVertices.length).map (processVertex mesh) := by
  unfold processMesh AiMesh.mNumVertices
  simp only [foldl_push_back, List.nil_append]

theorem processMesh_indices (mesh : AiMesh K) :
    (processMesh mesh).indices = faceIndices mesh.mFaces := by
  unfold processMesh
  simp only [foldl_faces, List.nil_append]

end ImportLemmas

section ImportClaims

variable {K : Type} [LinearOrderedField K]

/-- C7: when the mesh list is empty, or its first mesh has no vertex
(whatever the later meshes hold), `calculateModelCenterAndRadius` sets
`modelCenter` to the origin and `modelRadius` to 5 and leaves every other
variable, `mc_Distance` and `vc_CameraPos` among them, as it was. -/
theorem default_center_and_radius (ops : FloatOps K) (meshes : List (Mesh K)) (s : State K)
    (h : meshes = [] ∨ ∃ mesh0 rest, meshes = mesh0 :: rest ∧ mesh0.vertices = []) :
    calculateModelCenterAndRadius ops meshes s =
        { s with modelCenter := ⟨0, 0, 0⟩, modelRadius := 5 } ∧
      (calculateModelCenterAndRadius ops meshes s).mc_Distance = s.mc_Distance ∧
      (calculateModelCenterAndRadius ops meshes s).vc_CameraPos = s.vc_CameraPos := by
  have e : calculateModelCenterAndRadius ops meshes s =
      { s with modelCenter := ⟨0, 0, 0⟩, modelRadius := 5 } := by
    rcases h with h | ⟨mesh0, rest, h, hv⟩
    · rw [h]
      rfl
    · rw [h]
      unfold calculateModelCenterAndRadius
      simp only [hv]
      rfl
  rw [e]
  exact ⟨rfl, rfl, rfl⟩

theorem default_center_and_radius_witness :
    calculateModelCenterAndRadius realOps
        [{ vertices := [], indices := [] },
         { vertices := [{ Position := ⟨1, 2, 3⟩, Normal := ⟨0, 0, 1⟩, TexCoords := ⟨0, 0⟩ }],
           indices := [0, 0, 0] }]
        (State.init : State ℝ) =
      { (State.init : State ℝ) with modelCenter := ⟨0, 0, 0⟩, modelRadius := 5 } :=
  (default_center_and_radius realOps _ _ (Or.inr ⟨_, _, rfl, rfl⟩)).1

/-- C8: for a source mesh that carries normals (one per vertex) and whose
faces all have 3 indices, `processMesh` yields as indices the indices of
the faces in face order, `3 * (number of faces)` of them, a multiple of 3,
and as many vertices as the source has, vertex `i` having the source
position `i` and the source normal `i`. -/
theorem processMesh_keeps_source (mesh : AiMesh K) (normals : List (Vec3 K))
    (hn : mesh.mNormals = some normals) (hlen : normals.length = mesh.mVertices.length)
    (htri : ∀ f ∈ mesh.mFaces, f.mIndices.length = 3) :
    (processMesh mesh).indices = faceIndices mesh.mFaces ∧
    (processMesh mesh).indices.length = 3 * mesh.mFaces.length ∧
    (processMesh mesh).indices.length % 3 = 0 ∧
    (processMesh mesh).vertices.length = mesh.mVertices.length ∧
    (∀ i, i < mesh.mVertices.length →
      ∃ v, (processMesh mesh).vertices[i]? = some v ∧
        mesh.mVertices[i]? = some v.Position ∧ normals[i]? = some v.Normal) := by
  have hi := processMesh_indices mesh
  have hl : (processMesh mesh).indices.length = 3 * mesh.mFaces.length := by
    rw [hi]
    exact faceIndices_length mesh.mFaces htri
  refine ⟨hi, hl, ?_, ?_, ?_⟩
  · rw [hl]
    exact Nat.mul_mod_right 3 _
  · rw [processMesh_vertices, List.length_map, List.length_range]
  · intro i hlt
    refine ⟨processVertex mesh i, ?_, ?_, ?_⟩
    · rw [processMesh_vertices, List.getElem?_map, List.getElem?_range hlt]
      rfl
    · unfold processVertex
      dsimp only
      rw [List.getD_eq_getElem _ _ hlt, List.getElem?_eq_getElem hlt]
    · have hh : mesh.HasNormals = true := by
        unfold AiMesh.HasNormals AiMesh.mNumVertices
        rw [hn]
        simp only [Option.isSome_some, Bool.true_and, decide_eq_true_eq]
        omega
      have hlt2 : i < normals.length := by omega
      unfold processVertex
      dsimp only
      rw [if_pos hh, hn]
      show normals[i]? = some (normals.getD i (Vec3.splat 0))
      rw [List.getD_eq_getElem _ _ hlt2, List.getElem?_eq_getElem hlt2]

theorem processMesh_keeps_source_witness :
    (processMesh sampleQuad).indices = [0, 1, 2, 2, 1, 3] ∧
    (processMesh sampleQuad).vertices.length = 4 :=
  have h := processMesh_keeps_source sampleQuad
    [⟨0, 0, 1⟩, ⟨0, 0, 1⟩, ⟨0, 0, 1⟩, ⟨0, 0, 1⟩] rfl rfl
    (by
      intro f hf
      simp only [sampleQuad, List.mem_cons, List.mem_singleton, List.not_mem_nil,
        or_false] at hf
      rcases hf with h | h <;> rw [h] <;> rfl)
  ⟨h.1.trans rfl, h.2.2.2.1.trans rfl⟩

end ImportClaims

/-! ## Start-up -/

section MainClaims

variable {K : Type} [LinearOrderedField K]

theorem loadModel_failed (readFile : Option (AiScene K)) (s : State K)
    (h : ImportFailed readFile) :
    loadModel readFile s = ([], { s with cout := s.cout ++ [LogMsg.assimpError] }) := by
  unfold loadModel
  cases readFile with
  | none => rfl
  | some scene =>
    dsimp only
    rcases h with h | h
    · rw [if_pos h]
    · rw [h]
      split_ifs <;> rfl

theorem renderLoop_exit (ops : FloatOps K) (fs : List (Frame K)) (s : State K) (n : Nat) :
    (renderLoop ops fs s n).exit = none ∨ (renderLoop ops fs s n).exit = some 0 := by
  induction fs generalizing s n with
  | nil =>
    unfold renderLoop
    dsimp only
    split_ifs
    · exact Or.inr rfl
    · exact Or.inl rfl
  | cons f fs ih =>
    unfold renderLoop
    split_ifs
    · exact Or.inr rfl
    · exact ih _ _

theorem main_after_init (ops : FloatOps K) (env : Env K)
    (hg : env.glfwInit = true) (hw : env.windowCreated = true) (hl : env.gladLoaded = true)
    (hp : env.programID ≠ 0) (he : env.modelException = false) :
    (main ops env).exit = none ∨ (main ops env).exit = some 0 := by
  unfold main
  simp only [hg, hw, hl, he, hp, Bool.not_true, Bool.false_eq_true, if_false]
  exact renderLoop_exit ops _ _ _

/-- C9, as the code behaves: with every library call succeeding except the
import, which returns no scene, `main` writes the Assimp diagnostic, then
the success lines with centre (0,0,0) and radius 5, runs the render loop
(one round, ended by the escape key) and returns 0. -/
theorem main_import_failure_returns_zero :
    (main realOps importFailureEnv).exit = some 0 ∧
    (main realOps importFailureEnv).iterations = 1 ∧
    (main realOps importFailureEnv).state.cout =
      [LogMsg.assimpError, LogMsg.modelLoaded ⟨0, 0, 0⟩, LogMsg.modelRadiusLine 5] := by
  simp [main, importFailureEnv, Model.new, loadModel, calculateModelCenterAndRadius,
    renderLoop, renderFrame, processInput, processEscape, processToggle, moveModel,
    updateTime, shaderLog, Keys.onlyEscape, Keys.released, State.init, Vec3.splat]

end MainClaims

/-! ## The view transform -/

section ViewLemmas

variable {K : Type} [LinearOrderedField K]

end ViewLemmas

section ViewClaims

variable {K : Type} [LinearOrderedField K]

end ViewClaims

/-! ## Unit directions and non-zero normalisations -/

section DirectionLemmas

end DirectionLemmas

section CameraInvariant

end CameraInvariant

section ViewWitness

end ViewWitness

section NormalisationClaims

end NormalisationClaims

/-! ## The callbacks in single precision -/

namespace Binary32

theorem f32_roundUnits_ne_nan (m : Int) (k : Nat) : roundUnits m k ≠ F32.nan := by
  unfold roundUnits
  dsimp only
  split_ifs <;> exact F32.noConfusion

theorem f32_pitchLimit_eq : pitchLimit = F32.fin (89 * 2 ^ 149) := by decide

theorem f32_tenth_eq : tenth = F32.fin (13421773 * 2 ^ 122) := by decide

theorem f32_sub_fin_ne_nan (a b : Int) : F32.fin a - F32.fin b ≠ F32.nan :=
  f32_roundUnits_ne_nan _ _

theorem f32_mul_tenth_ne_nan (x : F32) (h : x ≠ F32.nan) : x * tenth ≠ F32.nan := by
  rw [f32_tenth_eq]
  cases x with
  | fin a => exact f32_roundUnits_ne_nan _ _
  | inf b =>
    show F32.mul (F32.inf b) (F32.fin (13421773 * 2 ^ 122)) ≠ F32.nan
    simp only [F32.mul]
    split_ifs with h0
    · exact absurd h0 (by decide)
    · exact F32.noConfusion
  | nan => exact absurd rfl h

theorem f32_fin_add_ne_nan (a : Int) (y : F32) (h : y ≠ F32.nan) : F32.fin a + y ≠ F32.nan := by
  cases y with
  | fin b => exact f32_roundUnits_ne_nan _ _
  | inf b => exact F32.noConfusion
  | nan => exact absurd rfl h

theorem f32_clampPitch_range (p : F32) (h : p ≠ F32.nan) :
    F32.le (-pitchLimit) (clampPitch p) = true ∧ F32.le (clampPitch p) pitchLimit = true := by
  unfold clampPitch
  rw [f32_pitchLimit_eq]
  have hc : (0 : Int) < 89 * 2 ^ 149 := by decide
  generalize (89 * 2 ^ 149 : Int) = c at hc
  show F32.le (F32.fin (-c)) _ = true ∧ F32.le _ (F32.fin c) = true
  cases p with
  | nan => exact absurd rfl h
  | inf b =>
    cases b
    · simp only [F32.lt, Bool.not_false, if_true]
      have e : (-F32.fin c : F32) = F32.fin (-c) := rfl
      rw [e]
      simp only [F32.lt, F32.le, decide_eq_true_eq]
      have h1 : ¬ (c < -c) := by omega
      rw [if_neg (by simpa using h1)]
      simp only [F32.le, decide_eq_true_eq]
      constructor <;> omega
    · simp only [F32.lt, Bool.not_true, Bool.false_eq_true, if_false]
      have e : (-F32.fin c : F32) = F32.fin (-c) := rfl
      rw [e]
      simp only [F32.lt, if_true, F32.le, decide_eq_true_eq]
      constructor <;> omega
  | fin n =>
    have e : (-F32.fin c : F32) = F32.fin (-c) := rfl
    rw [e]
    simp only [F32.lt, decide_eq_true_eq]
    by_cases h1 : c < n
    · rw [if_pos h1]
      have h2 : ¬ (c < -c) := by omega
      simp only [F32.lt, decide_eq_true_eq, if_neg h2, F32.le]
      constructor <;> omega
    · rw [if_neg h1]
      simp only [F32.lt, decide_eq_true_eq]
      by_cases h2 : n < -c
      · rw [if_pos h2]
        simp only [F32.le, decide_eq_true_eq]
        constructor <;> omega
      · rw [if_neg h2]
        simp only [F32.le, decide_eq_true_eq]
        constructor <;> omega

theorem f32_le_ne_nan (a b : F32) (h : F32.le a b = true) : b ≠ F32.nan := by
  intro e
  rw [e] at h
  cases a <;> simp [F32.le] at h

theorem f32_range_finite (p : F32) (h1 : F32.le (-pitchLimit) p = true)
    (h2 : F32.le p pitchLimit = true) : ∃ n, p = F32.fin n := by
  rw [f32_pitchLimit_eq] at h1 h2
  cases p with
  | fin n => exact ⟨n, rfl⟩
  | inf b =>
    cases b
    · simp [F32.le] at h2
    · have e : (-F32.fin (89 * 2 ^ 149) : F32) = F32.fin (-(89 * 2 ^ 149)) := rfl
      rw [e] at h1
      simp [F32.le] at h1
  | nan => simp [F32.le] at h2

end Binary32

namespace Binary32

theorem f32_finite_eq (x : F32) (h : x.isFinite = true) : ∃ n, x = F32.fin n := by
  cases x with
  | fin n => exact ⟨n, rfl⟩
  | inf b => simp [F32.isFinite] at h
  | nan => simp [F32.isFinite] at h

theorem f32_pitch_update (p lastY y : F32) (hp : p.isFinite = true)
    (hl : lastY.isFinite = true) (hy : y.isFinite = true) :
    F32.le (-pitchLimit) (clampPitch (p + (lastY - y) * MOUSE_SENSITIVITY)) = true ∧
      F32.le (clampPitch (p + (lastY - y) * MOUSE_SENSITIVITY)) pitchLimit = true := by
  obtain ⟨a, rfl⟩ := f32_finite_eq p hp
  obtain ⟨b, rfl⟩ := f32_finite_eq lastY hl
  obtain ⟨c, rfl⟩ := f32_finite_eq y hy
  exact f32_clampPitch_range _
    (f32_fin_add_ne_nan a _ (f32_mul_tenth_ne_nan _ (f32_sub_fin_ne_nan b c)))

theorem f32_mouse_first (libm : Libm) (x y : Dyadic) (s : State F32)
    (h : s.firstMouse = true) :
    mouse_callback libm x y s =
      { s with lastX := narrow x, lastY := narrow y, firstMouse := false } := by
  unfold mouse_callback
  simp only [h, if_true]

theorem f32_mouse_model (libm : Libm) (x y : Dyadic) (s : State F32)
    (h : s.firstMouse = false) (hm : s.currentViewMode = ViewMode.MODEL_CENTERED) :
    mouse_callback libm x y s =
      { s with lastX := narrow x, lastY := narrow y,
               mc_Yaw := s.mc_Yaw + (narrow x - s.lastX) * MOUSE_SENSITIVITY,
               mc_Pitch := clampPitch (s.mc_Pitch + (s.lastY - narrow y) * MOUSE_SENSITIVITY) } := by
  unfold mouse_callback
  simp [h, hm]

theorem f32_mouse_viewpoint (libm : Libm) (x y : Dyadic) (s : State F32)
    (h : s.firstMouse = false) (hm : s.currentViewMode = ViewMode.VIEWPOINT_CENTERED) :
    ∃ front, mouse_callback libm x y s =
      { s with lastX := narrow x, lastY := narrow y,
               vc_Yaw := s.vc_Yaw + (narrow x - s.lastX) * MOUSE_SENSITIVITY,
               vc_Pitch := clampPitch (s.vc_Pitch + (s.lastY - narrow y) * MOUSE_SENSITIVITY),
               vc_CameraFront := front } := by
  unfold mouse_callback
  simp [h, hm]

theorem f32_mode_cases (s : State F32) :
    s.currentViewMode = ViewMode.MODEL_CENTERED ∨
      s.currentViewMode = ViewMode.VIEWPOINT_CENTERED := by
  cases s.currentViewMode
  · exact Or.inl rfl
  · exact Or.inr rfl

theorem f32_moveModel_frame (libm : Libm) (keys : Keys) (speed : F32) (s : State F32) :
    ∃ o, moveModel libm keys speed s = { s with mc_ModelOffset := o } := by
  unfold moveModel
  dsimp only
  split_ifs <;> exact ⟨_, rfl⟩

theorem f32_moveCamera_frame (libm : Libm) (keys : Keys) (speed : F32) (s : State F32) :
    ∃ p, moveCamera libm keys speed s = { s with vc_CameraPos := p } := by
  unfold moveCamera
  dsimp only
  split_ifs <;> exact ⟨_, rfl⟩

theorem f32_processInput_frame (libm : Libm) (keys : Keys) (s : State F32) :
    ∃ m l k b o p, processInput libm keys s =
      { s with currentViewMode := m, cout := l, cKeyPressed := k,
               windowShouldClose := b, mc_ModelOffset := o, vc_CameraPos := p } := by
  have h1 : ∃ b, processEscape keys s = { s with windowShouldClose := b } := by
    unfold processEscape
    split_ifs <;> exact ⟨_, rfl⟩
  obtain ⟨b, hb⟩ := h1
  have h2 : ∃ m l k, processToggle keys (processEscape keys s) =
      { s with currentViewMode := m, cout := l, cKeyPressed := k, windowShouldClose := b } := by
    rw [hb]
    unfold processToggle
    split_ifs <;> exact ⟨_, _, _, rfl⟩
  obtain ⟨m, l, k, hl⟩ := h2
  unfold processInput
  dsimp only
  rw [hl]
  dsimp only
  cases m
  · dsimp only
    obtain ⟨o, ho⟩ := f32_moveModel_frame libm keys (MOVE_SPEED * s.deltaTime)
      { s with currentViewMode := ViewMode.MODEL_CENTERED, cout := l, cKeyPressed := k,
               windowShouldClose := b }
    rw [ho]
    exact ⟨_, _, _, _, _, _, rfl⟩
  · dsimp only
    obtain ⟨p, hp⟩ := f32_moveCamera_frame libm keys (MOVE_SPEED * s.deltaTime)
      { s with currentViewMode := ViewMode.VIEWPOINT_CENTERED, cout := l, cKeyPressed := k,
               windowShouldClose := b }
    rw [hp]
    exact ⟨_, _, _, _, _, _, rfl⟩

theorem f32_scroll_frame (x y : Dyadic) (s : State F32) :
    ∃ d, scroll_callback x y s = { s with mc_Distance := d } := by
  rcases f32_mode_cases s with hm | hm
  · unfold scroll_callback
    simp only [hm]
    exact ⟨_, rfl⟩
  · refine ⟨s.mc_Distance, ?_⟩
    cases s
    simp only at hm
    subst hm
    rfl

/-- Both pitches are in range and the stored cursor height is finite. -/
theorem f32_mouse_inv (libm : Libm) (x y : Dyadic) (s : State F32)
    (hy : (narrow y).isFinite = true)
    (h : PitchesInRange s ∧ s.lastY.isFinite = true) :
    PitchesInRange (mouse_callback libm x y s) ∧
      (mouse_callback libm x y s).lastY.isFinite = true := by
  obtain ⟨⟨hm1, hv1⟩, hl⟩ := h
  obtain ⟨a, ha⟩ := f32_range_finite _ hm1.1 hm1.2
  obtain ⟨b, hb⟩ := f32_range_finite _ hv1.1 hv1.2
  cases hf : s.firstMouse
  · rcases f32_mode_cases s with hm | hm
    · rw [f32_mouse_model libm x y s hf hm]
      exact ⟨⟨f32_pitch_update _ _ _ (by rw [ha]; rfl) hl hy, hv1⟩, hy⟩
    · obtain ⟨front, e⟩ := f32_mouse_viewpoint libm x y s hf hm
      rw [e]
      exact ⟨⟨hm1, f32_pitch_update _ _ _ (by rw [hb]; rfl) hl hy⟩, hy⟩
  · rw [f32_mouse_first libm x y s hf]
    exact ⟨⟨hm1, hv1⟩, hy⟩

theorem f32_run_inv (libm : Libm) (es : List Event) (s : State F32)
    (hes : SamplesFinite es) (h : PitchesInRange s ∧ s.lastY.isFinite = true) :
    PitchesInRange (run libm es s) ∧ (run libm es s).lastY.isFinite = true := by
  induction es generalizing s with
  | nil => exact h
  | cons e es ih =>
    have hrun : run libm (e :: es) s = run libm es (step libm e s) := rfl
    rw [hrun]
    cases e with
    | mouse x y => exact ih _ hes.2.2 (f32_mouse_inv libm x y s hes.2.1 h)
    | scroll x y =>
      obtain ⟨d, e⟩ := f32_scroll_frame x y s
      refine ih _ hes ?_
      show PitchesInRange (scroll_callback x y s) ∧ (scroll_callback x y s).lastY.isFinite = true
      rw [e]
      exact h
    | time t => exact ih _ hes h
    | input keys =>
      obtain ⟨m, l, k, b, o, p, e⟩ := f32_processInput_frame libm keys s
      refine ih _ hes ?_
      show PitchesInRange (processInput libm keys s) ∧
        (processInput libm keys s).lastY.isFinite = true
      rw [e]
      exact h

theorem f32_init_inv : PitchesInRange init ∧ init.lastY.isFinite = true := by
  unfold PitchesInRange
  decide

end Binary32

namespace Binary32

theorem f32_raiseTo (d floor : F32) :
    raiseTo d floor = F32.nan ∨ floor = F32.nan ∨ F32.le floor (raiseTo d floor) = true := by
  unfold raiseTo
  cases d with
  | nan => exact Or.inl rfl
  | inf a =>
    cases floor with
    | nan => exact Or.inr (Or.inl rfl)
    | inf b => cases a <;> cases b <;> simp [F32.lt, F32.le]
    | fin m => cases a <;> simp [F32.lt, F32.le]
  | fin n =>
    cases floor with
    | nan => exact Or.inr (Or.inl rfl)
    | inf b => cases b <;> simp [F32.lt, F32.le]
    | fin m =>
      by_cases h : n < m
      · simp [F32.lt, F32.le, h]
      · simp [F32.lt, F32.le, h]
        omega

theorem f32_scroll_model (x y : Dyadic) (s : State F32)
    (hm : s.currentViewMode = ViewMode.MODEL_CENTERED) :
    (scroll_callback x y s).mc_Distance =
      raiseTo (s.mc_Distance - narrow y * SCROLL_SENSITIVITY * s.mc_Distance)
        (s.modelRadius * tenth) := by
  unfold scroll_callback raiseTo
  simp only [hm]

theorem f32_scroll_viewpoint (x y : Dyadic) (s : State F32)
    (hm : s.currentViewMode = ViewMode.VIEWPOINT_CENTERED) : scroll_callback x y s = s := by
  unfold scroll_callback
  simp only [hm]

theorem f32_zoom_ne_nan (a c : Int) (ha : a ≠ 0) :
    F32.fin a - F32.fin c * SCROLL_SENSITIVITY * F32.fin a ≠ F32.nan := by
  have h1 : F32.fin c * SCROLL_SENSITIVITY ≠ F32.nan :=
    f32_mul_tenth_ne_nan _ F32.noConfusion
  generalize F32.fin c * SCROLL_SENSITIVITY = q at h1
  cases q with
  | nan => exact absurd rfl h1
  | fin b =>
    have h2 : F32.fin b * F32.fin a ≠ F32.nan := f32_roundUnits_ne_nan _ _
    generalize F32.fin b * F32.fin a = r at h2
    cases r with
    | nan => exact absurd rfl h2
    | fin e => exact f32_roundUnits_ne_nan _ _
    | inf e => exact F32.noConfusion
  | inf b =>
    have h2 : F32.inf b * F32.fin a = F32.inf (b != decide (a < 0)) := by
      show F32.mul (F32.inf b) (F32.fin a) = _
      simp only [F32.mul]
      rw [if_neg ha]
    rw [h2]
    exact F32.noConfusion

end Binary32

/-! ## The claims in single precision -/

namespace Binary32

/-- C1, as the code behaves: two cursor samples at height `2^130`, a finite
`double` beyond the `float` range, convert to plus infinity; the second
(`firstMouse` is false by then) computes `inf - inf`, and `mc_Pitch`, the
pitch of the active mode, is NaN, which is not at most 89. -/
theorem f32_pitch_nan_counterexample :
    (run exactLibm [Event.mouse ⟨0, 0⟩ ⟨2 ^ 130, 0⟩] init).firstMouse = false ∧
    (mouse_callback exactLibm ⟨0, 0⟩ ⟨2 ^ 130, 0⟩
      (run exactLibm [Event.mouse ⟨0, 0⟩ ⟨2 ^ 130, 0⟩] init)).currentViewMode =
        ViewMode.MODEL_CENTERED ∧
    (mouse_callback exactLibm ⟨0, 0⟩ ⟨2 ^ 130, 0⟩
      (run exactLibm [Event.mouse ⟨0, 0⟩ ⟨2 ^ 130, 0⟩] init)).mc_Pitch = F32.nan ∧
    F32.le (mouse_callback exactLibm ⟨0, 0⟩ ⟨2 ^ 130, 0⟩
      (run exactLibm [Event.mouse ⟨0, 0⟩ ⟨2 ^ 130, 0⟩] init)).mc_Pitch pitchLimit = false := by
  decide

/-- C1, amended: for a state with `firstMouse = false` whose stored cursor
height and active pitch are finite, and a cursor sample whose height
converts to a finite `float`, after `mouse_callback` the mode is the one
before and the pitch of the active mode is a number between -89 and 89;
and from the initial state both pitches are between -89 and 89 after any
cursor, wheel, clock and `processInput` events whose cursor samples all
convert to finite `float`s. -/
theorem f32_pitch_clamped (libm : Libm) (s : State F32) (x y : Dyadic) (es : List Event)
    (hfirst : s.firstMouse = false) (hy : (narrow y).isFinite = true)
    (hl : s.lastY.isFinite = true) (hp : (activePitch s).isFinite = true)
    (hes : SamplesFinite es) :
    ((mouse_callback libm x y s).currentViewMode = s.currentViewMode ∧
      F32.le (-pitchLimit) (activePitch (mouse_callback libm x y s)) = true ∧
      F32.le (activePitch (mouse_callback libm x y s)) pitchLimit = true) ∧
    PitchesInRange (run libm es init) := by
  refine ⟨?_, (f32_run_inv libm es init hes f32_init_inv).1⟩
  rcases f32_mode_cases s with hm | hm
  · rw [f32_mouse_model libm x y s hfirst hm]
    unfold activePitch at hp ⊢
    simp only [hm] at hp ⊢
    exact ⟨trivial, f32_pitch_update _ _ _ hp hl hy⟩
  · obtain ⟨front, e⟩ := f32_mouse_viewpoint libm x y s hfirst hm
    rw [e]
    unfold activePitch at hp ⊢
    simp only [hm] at hp ⊢
    exact ⟨trivial, f32_pitch_update _ _ _ hp hl hy⟩

theorem f32_pitch_clamped_witness :
    F32.le (activePitch (mouse_callback exactLibm ⟨0, 0⟩ ⟨-1000000, 0⟩
      { init with firstMouse := false })) pitchLimit = true ∧
    PitchesInRange (run exactLibm [Event.mouse ⟨0, 0⟩ ⟨0, 0⟩, Event.mouse ⟨5, 0⟩ ⟨-1000000, 0⟩,
      Event.scroll ⟨0, 0⟩ ⟨1, 0⟩, Event.mouse ⟨7, 0⟩ ⟨1000000, 0⟩] init) :=
  have h := f32_pitch_clamped exactLibm { init with firstMouse := false } ⟨0, 0⟩ ⟨-1000000, 0⟩
    [Event.mouse ⟨0, 0⟩ ⟨0, 0⟩, Event.mouse ⟨5, 0⟩ ⟨-1000000, 0⟩,
      Event.scroll ⟨0, 0⟩ ⟨1, 0⟩, Event.mouse ⟨7, 0⟩ ⟨1000000, 0⟩]
    rfl (by decide) (by decide) (by decide) (by simp only [SamplesFinite]; decide)
  ⟨h.1.2.2, h.2⟩

/-- C2, as the code behaves: from the initial state (`MODEL_CENTERED`,
`modelRadius` 5) two wheel samples of `-2^123` take `mc_Distance` to plus
infinity, and a further sample of 1 computes `inf - inf`: `mc_Distance` is
NaN, for which the test of line 412 is false, so it is not at least
`0.1 * modelRadius`. -/
theorem f32_distance_nan_counterexample :
    (run exactLibm [Event.scroll ⟨0, 0⟩ ⟨-2 ^ 123, 0⟩, Event.scroll ⟨0, 0⟩ ⟨-2 ^ 123, 0⟩]
      init).currentViewMode = ViewMode.MODEL_CENTERED ∧
    (run exactLibm [Event.scroll ⟨0, 0⟩ ⟨-2 ^ 123, 0⟩, Event.scroll ⟨0, 0⟩ ⟨-2 ^ 123, 0⟩]
      init).modelRadius = F32.ofInt 5 ∧
    (run exactLibm [Event.scroll ⟨0, 0⟩ ⟨-2 ^ 123, 0⟩, Event.scroll ⟨0, 0⟩ ⟨-2 ^ 123, 0⟩]
      init).mc_Distance = F32.inf false ∧
    (scroll_callback ⟨0, 0⟩ ⟨1, 0⟩
      (run exactLibm [Event.scroll ⟨0, 0⟩ ⟨-2 ^ 123, 0⟩, Event.scroll ⟨0, 0⟩ ⟨-2 ^ 123, 0⟩]
        init)).mc_Distance = F32.nan ∧
    F32.le (F32.ofInt 5 * tenth) (scroll_callback ⟨0, 0⟩ ⟨1, 0⟩
      (run exactLibm [Event.scroll ⟨0, 0⟩ ⟨-2 ^ 123, 0⟩, Event.scroll ⟨0, 0⟩ ⟨-2 ^ 123, 0⟩]
        init)).mc_Distance = false := by
  decide

/-- C2, amended: in `MODEL_CENTERED` mode `scroll_callback` sets
`mc_Distance` to `d - (float)scrollY * 0.1f * d`, computed in `float`, raised
to `modelRadius * 0.1f` when below it; the result is NaN, or the floor is
NaN, or the result is at least the floor; when `mc_Distance` is finite and
not zero, `modelRadius` is finite and the wheel value converts to a finite
`float`, the result is a number at least `modelRadius * 0.1f`.  In
`VIEWPOINT_CENTERED` mode the state is unchanged. -/
theorem f32_scroll_distance_floor (x y : Dyadic) (s t v : State F32)
    (hm : s.currentViewMode = ViewMode.MODEL_CENTERED)
    (hd : s.mc_Distance.isFinite = true) (hne : s.mc_Distance ≠ F32.fin 0)
    (hr : s.modelRadius.isFinite = true) (hy : (narrow y).isFinite = true)
    (ht : t.currentViewMode = ViewMode.MODEL_CENTERED)
    (hv : v.currentViewMode = ViewMode.VIEWPOINT_CENTERED) :
    (scroll_callback x y s).mc_Distance =
        raiseTo (s.mc_Distance - narrow y * tenth * s.mc_Distance) (s.modelRadius * tenth) ∧
    F32.le (s.modelRadius * tenth) (scroll_callback x y s).mc_Distance = true ∧
    ((scroll_callback x y t).mc_Distance = F32.nan ∨ t.modelRadius * tenth = F32.nan ∨
      F32.le (t.modelRadius * tenth) (scroll_callback x y t).mc_Distance = true) ∧
    scroll_callback x y v = v := by
  refine ⟨f32_scroll_model x y s hm, ?_, ?_, f32_scroll_viewpoint x y v hv⟩
  · rw [f32_scroll_model x y s hm]
    obtain ⟨a, ha⟩ := f32_finite_eq _ hd
    obtain ⟨r, hr2⟩ := f32_finite_eq _ hr
    obtain ⟨c, hc⟩ := f32_finite_eq _ hy
    rw [ha] at hne
    have hane : a ≠ 0 := fun e => hne (by rw [e])
    have h1 := f32_zoom_ne_nan a c hane
    have h2 : F32.fin r * tenth ≠ F32.nan := f32_mul_tenth_ne_nan _ F32.noConfusion
    rw [ha, hr2, hc]
    rcases f32_raiseTo (F32.fin a - F32.fin c * SCROLL_SENSITIVITY * F32.fin a)
      (F32.fin r * tenth) with h | h | h
    · unfold raiseTo at h
      split_ifs at h with h3
      · exact absurd h h2
      · exact absurd h h1
    · exact absurd h h2
    · exact h
  · rw [f32_scroll_model x y t ht]
    exact f32_raiseTo _ _

theorem f32_scroll_distance_floor_witness :
    F32.le (init.modelRadius * tenth) (scroll_callback ⟨0, 0⟩ ⟨25, 0⟩ init).mc_Distance = true ∧
    (scroll_callback ⟨0, 0⟩ ⟨25, 0⟩ init).mc_Distance = F32.ofInt 5 * tenth :=
  have h := f32_scroll_distance_floor ⟨0, 0⟩ ⟨25, 0⟩ init init
    { init with currentViewMode := ViewMode.VIEWPOINT_CENTERED }
    rfl (by decide) (by decide) (by decide) (by decide) rfl rfl
  ⟨h.2.1, by decide⟩

end Binary32

namespace Binary32

theorem f32_mouse_mode (libm : Libm) (x y : Dyadic) (s : State F32) :
    (mouse_callback libm x y s).currentViewMode = s.currentViewMode := by
  cases hf : s.firstMouse
  · rcases f32_mode_cases s with hm | hm
    · rw [f32_mouse_model libm x y s hf hm]
    · obtain ⟨front, e⟩ := f32_mouse_viewpoint libm x y s hf hm
      rw [e]
  · rw [f32_mouse_first libm x y s hf]

theorem f32_mouse_active (libm : Libm) (x y : Dyadic) (s : State F32)
    (h : s.firstMouse = false) :
    activeYaw (mouse_callback libm x y s) =
        activeYaw s + (narrow x - s.lastX) * MOUSE_SENSITIVITY ∧
      activePitch (mouse_callback libm x y s) =
        clampPitch (activePitch s + (s.lastY - narrow y) * MOUSE_SENSITIVITY) := by
  rcases f32_mode_cases s with hm | hm
  · rw [f32_mouse_model libm x y s h hm]
    unfold activeYaw activePitch
    simp only [hm]
    exact ⟨trivial, trivial⟩
  · obtain ⟨front, e⟩ := f32_mouse_viewpoint libm x y s h hm
    rw [e]
    unfold activeYaw activePitch
    simp only [hm]
    exact ⟨trivial, trivial⟩

theorem f32_clampPitch_nan_or_range (p : F32) :
    clampPitch p = F32.nan ∨
      (F32.le (-pitchLimit) (clampPitch p) = true ∧ F32.le (clampPitch p) pitchLimit = true) := by
  by_cases hn : p = F32.nan
  · left
    rw [hn]
    decide
  · exact Or.inr (f32_clampPitch_range p hn)

/-- C4, as the code behaves: from the initial state the samples
`x1 = 2^24` and `x2 = 2^24 + 1` both convert to the `float` `2^24`, so the
second sample leaves `mc_Yaw` at -90 although `0.1 * (x2 - x1)` is `0.1`;
and after the samples 0 and 1 the yaw is the `float` -89.9000015..., not
-89.9. -/
theorem f32_delta_lost_counterexample :
    init.firstMouse = true ∧
    (run exactLibm [Event.mouse ⟨2 ^ 24, 0⟩ ⟨0, 0⟩, Event.mouse ⟨2 ^ 24 + 1, 0⟩ ⟨0, 0⟩]
      init).currentViewMode = ViewMode.MODEL_CENTERED ∧
    (run exactLibm [Event.mouse ⟨2 ^ 24, 0⟩ ⟨0, 0⟩, Event.mouse ⟨2 ^ 24 + 1, 0⟩ ⟨0, 0⟩]
      init).mc_Yaw = init.mc_Yaw ∧
    F32.toRat (run exactLibm [Event.mouse ⟨2 ^ 24, 0⟩ ⟨0, 0⟩,
        Event.mouse ⟨2 ^ 24 + 1, 0⟩ ⟨0, 0⟩] init).mc_Yaw ≠
      F32.toRat init.mc_Yaw + 1 / 10 * (((2 : ℚ) ^ 24 + 1) - 2 ^ 24) ∧
    (run exactLibm [Event.mouse ⟨0, 0⟩ ⟨0, 0⟩, Event.mouse ⟨1, 0⟩ ⟨0, 0⟩] init).mc_Yaw =
      F32.fin (-(11783373 * 2 ^ 132)) := by
  have h : (run exactLibm [Event.mouse ⟨2 ^ 24, 0⟩ ⟨0, 0⟩, Event.mouse ⟨2 ^ 24 + 1, 0⟩ ⟨0, 0⟩]
      init).mc_Yaw = init.mc_Yaw := by decide
  refine ⟨rfl, by decide, h, ?_, by decide⟩
  rw [h]
  norm_num

/-- C4, amended: on a state with `firstMouse = true`, as the initial state
is, the first cursor sample only records the position, converted to `float`,
and clears `firstMouse`, so yaw and pitch of both modes and `vc_CameraFront`
keep their values; the second sample then sets the yaw of the active mode
to `yaw + (x2 - x1) * 0.1f` and its pitch to the clamped
`pitch + (y1 - y2) * 0.1f`, where `x1, y1, x2, y2` are the samples converted
to `float` and every operation is rounded to `float`; the clamped pitch is
NaN or between -89 and 89. -/
theorem f32_first_sample_suppressed (libm : Libm) (s : State F32) (x1 y1 x2 y2 : Dyadic)
    (h : s.firstMouse = true) :
    init.firstMouse = true ∧
    mouse_callback libm x1 y1 s =
      { s with lastX := narrow x1, lastY := narrow y1, firstMouse := false } ∧
    ((mouse_callback libm x1 y1 s).mc_Yaw = s.mc_Yaw ∧
      (mouse_callback libm x1 y1 s).mc_Pitch = s.mc_Pitch ∧
      (mouse_callback libm x1 y1 s).vc_Yaw = s.vc_Yaw ∧
      (mouse_callback libm x1 y1 s).vc_Pitch = s.vc_Pitch ∧
      (mouse_callback libm x1 y1 s).vc_CameraFront = s.vc_CameraFront) ∧
    (mouse_callback libm x2 y2 (mouse_callback libm x1 y1 s)).currentViewMode =
      s.currentViewMode ∧
    activeYaw (mouse_callback libm x2 y2 (mouse_callback libm x1 y1 s)) =
      activeYaw s + (narrow x2 - narrow x1) * tenth ∧
    activePitch (mouse_callback libm x2 y2 (mouse_callback libm x1 y1 s)) =
      clampPitch (activePitch s + (narrow y1 - narrow y2) * tenth) ∧
    (activePitch (mouse_callback libm x2 y2 (mouse_callback libm x1 y1 s)) = F32.nan ∨
      (F32.le (-pitchLimit)
          (activePitch (mouse_callback libm x2 y2 (mouse_callback libm x1 y1 s))) = true ∧
        F32.le (activePitch (mouse_callback libm x2 y2 (mouse_callback libm x1 y1 s)))
          pitchLimit = true)) := by
  have h1 := f32_mouse_first libm x1 y1 s h
  have h2 := f32_mouse_active libm x2 y2
    { s with lastX := narrow x1, lastY := narrow y1, firstMouse := false } rfl
  refine ⟨rfl, h1, ?_, ?_, ?_, ?_, ?_⟩
  · rw [h1]
    exact ⟨rfl, rfl, rfl, rfl, rfl⟩
  · rw [f32_mouse_mode, f32_mouse_mode]
  · rw [h1]
    exact h2.1
  · rw [h1]
    exact h2.2
  · rw [h1, h2.2]
    exact f32_clampPitch_nan_or_range _

theorem f32_first_sample_suppressed_witness :
    init.firstMouse = true ∧
    activeYaw (mouse_callback exactLibm ⟨910, 0⟩ ⟨20, 0⟩
      (mouse_callback exactLibm ⟨10, 0⟩ ⟨20, 0⟩ init)) = F32.fin 0 ∧
    activePitch (mouse_callback exactLibm ⟨30, 0⟩ ⟨2000, 0⟩
      (mouse_callback exactLibm ⟨10, 0⟩ ⟨20, 0⟩ init)) = F32.ofInt (-89) :=
  ⟨rfl,
    (f32_first_sample_suppressed exactLibm init ⟨10, 0⟩ ⟨20, 0⟩ ⟨910, 0⟩ ⟨20, 0⟩
      rfl).2.2.2.2.1.trans (by decide),
    (f32_first_sample_suppressed exactLibm init ⟨10, 0⟩ ⟨20, 0⟩ ⟨30, 0⟩ ⟨2000, 0⟩
      rfl).2.2.2.2.2.1.trans (by decide)⟩

end Binary32

namespace Binary32

end Binary32

end HW03
